import Mathlib

/-!
Shallow embedding of `robottelo/config/settings.py`: the `INIReader`
(a ConfigParser wrapper with cast dispatch), the twelve
feature-settings groups, and the `Settings` aggregate with its
`configure()` read/validate sequence.

Modelling conventions:
* Python's dynamically typed attribute values are modelled by `Val`
  (None, str, int, bool, list, dict).
* Python exceptions are modelled by `PyError` inside `Except` results.
  Because Python mutates objects in place and an escaping exception
  leaves the mutations already performed, fallible operations return
  `Except (PyError × σ) σ`: the error case carries the partially
  updated record.
* The settings file is modelled as an already-parsed `INIReader`
  (ordered association lists of sections and options); the
  file-on-disk existence test in `configure()` is modelled by passing
  `Option INIReader` (`none` = no file at the computed path).
* Process-wide side effects of step 7 of `configure()`
  (`_configure_logging`, `_configure_third_party_logging`,
  `_configure_entities`) are modelled as an event list appended to the
  `sideEffects` field, which stands outside the Python object's
  attribute dictionary.
-/

/-- A Python value as stored in a settings attribute: `None`, `str`,
`int`, `bool`, a list of strings, or a dict of string pairs. -/
inductive Val where
  | none
  | str (s : String)
  | int (n : Int)
  | bool (b : Bool)
  | list (xs : List String)
  | dict (xs : List (String × String))
deriving Repr, DecidableEq

/-- Python truthiness `bool(v)` of a `Val`. -/
def Val.truthy : Val → Bool
  | .none => false
  | .str s => s != ""
  | .int n => n != 0
  | .bool b => b
  | .list xs => xs != []
  | .dict xs => xs != []

/-- Python `str(v)`, restricted to the value shapes that actually reach
string formatting in the modelled code paths (`None`, `str`, `int`,
`bool`); list/dict values never reach `str()` there. -/
def Val.toStr : Val → String
  | .none => "None"
  | .str s => s
  | .int n => toString n
  | .bool b => if b then "True" else "False"
  | .list _ => "<list>"
  | .dict _ => "<dict>"

/-- The Python exceptions that escape the modelled code:
`NoSectionError` / `NoOptionError` from ConfigParser, a cast failure
(`ValueError`-class) from a cast function, and `ImproperlyConfigured`. -/
inductive PyError where
  | noSection (sec : String)
  | noOption (sec opt : String)
  | castError (raw : String)
  | improperlyConfigured (msg : String)
deriving Repr, DecidableEq

/-- Python `str.lower` (ASCII case folding, which is all the modelled
option values use), written structurally on the character list so it
reduces definitionally. -/
def pyLower (s : String) : String := ⟨s.data.map Char.toLower⟩

/-- Python `str.strip`: drop whitespace from both ends. -/
def pyStrip (s : String) : String :=
  ⟨((s.data.dropWhile Char.isWhitespace).reverse.dropWhile Char.isWhitespace).reverse⟩

/-- Split a character list on a separator character (Python
`str.split(sep)` semantics: n separators yield n+1 pieces). -/
def splitChar (sep : Char) : List Char → List (List Char)
  | [] => [[]]
  | c :: rest =>
    match splitChar sep rest with
    | [] => [[c]]
    | h :: t => if c = sep then [] :: h :: t else (c :: h) :: t

/-- Python `str.split(sep)` on strings. -/
def pySplit (s : String) (sep : Char) : List String :=
  (splitChar sep s.data).map (fun l => ⟨l⟩)

/-- Accumulate a decimal value over digit characters. -/
def digitsAux : Nat → List Char → Option Nat
  | acc, [] => some acc
  | acc, c :: rest =>
    if c.isDigit then digitsAux (acc * 10 + (c.toNat - 48)) rest
    else Option.none

/-- The value of a non-empty all-digit character list. -/
def digitsVal : List Char → Option Nat
  | [] => Option.none
  | l => digitsAux 0 l

/-- Python `int(s)`: optional sign and decimal digits after stripping
surrounding whitespace; anything else fails. -/
def pyToInt (s : String) : Option Int :=
  match (pyStrip s).data with
  | '-' :: ds => (digitsVal ds).map (fun n => -(n : Int))
  | '+' :: ds => (digitsVal ds).map (fun n => (n : Int))
  | ds => (digitsVal ds).map (fun n => (n : Int))

/-- Python `sep.join(l)`. -/
def pyJoin (sep : String) : List String → String
  | [] => ""
  | [x] => x
  | x :: xs => x ++ sep ++ pyJoin sep xs

/-- Modelled from the spec: `robottelo.config.casts` is not under
`src/`.  Boolean caster: `"1"`/`"true"` (case-insensitive) map to
true, `"0"`/`"false"` to false, anything else is a cast error. -/
def cast_boolean (s : String) : Except PyError Val :=
  let l := pyLower s
  if l = "1" || l = "true" then .ok (.bool true)
  else if l = "0" || l = "false" then .ok (.bool false)
  else .error (.castError s)

/-- Modelled from the spec: List caster splits on commas and strips
whitespace around each element. -/
def cast_list (s : String) : Except PyError Val :=
  .ok (.list ((pySplit s (Char.ofNat 44)).map pyStrip))

/-- Modelled from the spec: Tuple caster splits on commas and strips
whitespace (the arity check is supplied by the caller and is not
exercised through `INIReader.get`). -/
def cast_tuple (s : String) : Except PyError Val :=
  .ok (.list ((pySplit s (Char.ofNat 44)).map pyStrip))

/-- Modelled from the spec: Dict caster splits on commas, then each
pair on the first colon, producing a mapping. -/
def cast_dict (s : String) : Except PyError Val :=
  .ok (.dict ((pySplit s (Char.ofNat 44)).map (fun p =>
    match pySplit p (Char.ofNat 58) with
    | [] => (pyStrip p, "")
    | k :: rest => (pyStrip k, pyStrip (pyJoin ":" rest)))))

/-- Modelled from the spec: LoggingLevel caster maps the closed set of
level names (case-insensitive) to the standard numeric levels;
an unrecognized name is a hard `ImproperlyConfigured`-class error. -/
def cast_logging_level (s : String) : Except PyError Val :=
  match pyLower s with
  | "debug" => .ok (.int 10)
  | "info" => .ok (.int 20)
  | "warning" => .ok (.int 30)
  | "error" => .ok (.int 40)
  | "critical" => .ok (.int 50)
  | _ => .error (.improperlyConfigured (s ++ " is not a recognized logging level"))

/-- Modelled from the spec: the webdriver-desired-capabilities caster
is a domain-specific structured key-value cast; modelled like the Dict
caster (its exact output never matters to the claims: the option is
absent in every concrete source used). -/
def cast_webdriver_desired_capabilities (s : String) : Except PyError Val :=
  cast_dict s

/-- Python `int(s)`: parse a (possibly signed, whitespace-trimmed)
decimal string, `ValueError` otherwise. -/
def cast_int (s : String) : Except PyError Val :=
  match pyToInt s with
  | Option.none => .error (.castError s)
  | some n => .ok (.int n)

/-- The `cast` argument of `INIReader.get`: the Python code dispatches
on the literal types `bool` / `dict` / `list` / `tuple` and otherwise
calls the supplied callable. -/
inductive Cast where
  | bool
  | dict
  | list
  | tuple
  | fn (f : String → Except PyError Val)

/-- The parsed settings file: an ordered association list from section
name to an ordered association list from option name to raw string
value (ConfigParser interpolation and the DEFAULT section are not used
by the modelled code). -/
structure INIReader where
  sections : List (String × List (String × String))
deriving Repr, DecidableEq

/-- `ConfigParser.get`: raises `NoSectionError` when the section is
missing, `NoOptionError` when the option is missing. -/
def INIReader.parserGet (r : INIReader) (sec opt : String) : Except PyError String :=
  match r.sections.lookup sec with
  | Option.none => .error (.noSection sec)
  | some opts =>
    match opts.lookup opt with
    | Option.none => .error (.noOption sec opt)
    | some v => .ok v

/-- `ConfigParser.has_section`. -/
def INIReader.has_section (r : INIReader) (sec : String) : Bool :=
  (r.sections.lookup sec).isSome

/-- `INIReader.get`: look the option up; when present apply the cast
(dispatching `bool`/`dict`/`list`/`tuple` to the helper casters, any
other callable directly), when no cast is given return the raw string;
a `NoSectionError`/`NoOptionError` is caught and turned into the
default, which is returned unchanged; a cast failure is not caught. -/
def INIReader.get (r : INIReader) (sec opt : String) (default : Val)
    (cast : Option Cast) : Except PyError Val :=
  match r.parserGet sec opt with
  | .ok v =>
    match cast with
    | Option.none => .ok (.str v)
    | some .bool => cast_boolean v
    | some .dict => cast_dict v
    | some .list => cast_list v
    | some .tuple => cast_tuple v
    | some (.fn f) => f v
  | .error (.noSection _) => .ok default
  | .error (.noOption _ _) => .ok default
  | .error e => .error e

/-- Model of a Python attribute assignment `self.x = reader.get(...)`
inside a method: on success the field is updated, on failure the
exception escapes with the record as mutated so far. -/
def setF {σ : Type} (st : σ) (v : Except PyError Val) (f : σ → Val → σ) :
    Except (PyError × σ) σ :=
  match v with
  | .ok x => .ok (f st x)
  | .error e => .error (e, st)

theorem setF_ok {σ : Type} {st st' : σ} {v : Except PyError Val}
    {f : σ → Val → σ} (h : setF st v f = .ok st') :
    ∃ x, v = .ok x ∧ st' = f st x := by
  cases v with
  | ok x => exact ⟨x, rfl, by simpa [setF] using h.symm⟩
  | error e => simp [setF] at h

theorem exceptBind_ok {ε α β : Type} {a : Except ε α} {f : α → Except ε β}
    {c : β} (h : a >>= f = .ok c) : ∃ b, a = .ok b ∧ f b = .ok c := by
  cases a with
  | ok b => exact ⟨b, rfl, h⟩
  | error e => simp [Bind.bind, Except.bind] at h

/-- `get` with no cast never raises: it yields the raw string when the
option is present and the default otherwise. -/
theorem get_noCast_ok (r : INIReader) (sec opt : String) (d : Val) :
    ∃ x, r.get sec opt d Option.none = .ok x := by
  unfold INIReader.get
  cases h : r.parserGet sec opt with
  | ok v => exact ⟨.str v, by simp⟩
  | error e =>
    unfold INIReader.parserGet at h
    cases hs : r.sections.lookup sec with
    | none => simp [hs] at h; subst h; exact ⟨d, by simp [hs]⟩
    | some opts =>
      cases ho : opts.lookup opt with
      | none => simp [hs, ho] at h; subst h; exact ⟨d, by simp [hs, ho]⟩
      | some v => simp [hs, ho] at h

/-! ## Feature settings groups -/

/-- `ServerSettings.__init__`: every field starts as `None`. -/
structure ServerSettings where
  admin_password : Val
  admin_username : Val
  hostname : Val
  port : Val
  scheme : Val
  ssh_key : Val
  ssh_password : Val
  ssh_username : Val
deriving Repr, DecidableEq

def ServerSettings.init : ServerSettings :=
  ⟨.none, .none, .none, .none, .none, .none, .none, .none⟩

/-- `ServerSettings.read`. -/
def ServerSettings.read (g : ServerSettings) (r : INIReader) :
    Except (PyError × ServerSettings) ServerSettings := do
  let g ← setF g (r.get "server" "admin_password" (.str "changeme") Option.none)
    (fun g v => { g with admin_password := v })
  let g ← setF g (r.get "server" "admin_username" (.str "admin") Option.none)
    (fun g v => { g with admin_username := v })
  let g ← setF g (r.get "server" "hostname" Val.none Option.none)
    (fun g v => { g with hostname := v })
  let g ← setF g (r.get "server" "port" Val.none (some (.fn cast_int)))
    (fun g v => { g with port := v })
  let g ← setF g (r.get "server" "scheme" (.str "https") Option.none)
    (fun g v => { g with scheme := v })
  let g ← setF g (r.get "server" "ssh_key" Val.none Option.none)
    (fun g v => { g with ssh_key := v })
  let g ← setF g (r.get "server" "ssh_password" Val.none Option.none)
    (fun g v => { g with ssh_password := v })
  let g ← setF g (r.get "server" "ssh_username" (.str "root") Option.none)
    (fun g v => { g with ssh_username := v })
  return g

/-- `ServerSettings.validate`: the two checks append their messages in
source order. -/
def ServerSettings.validate (g : ServerSettings) : List String :=
  (if g.hostname = Val.none then
    ["[server] hostname must be provided."] else []) ++
  (if g.ssh_key = Val.none ∧ g.ssh_password = Val.none then
    ["[server] ssh_key or ssh_password must be provided."] else [])

/-- `ServerSettings.get_credentials`. -/
def ServerSettings.get_credentials (g : ServerSettings) : Val × Val :=
  (g.admin_username, g.admin_password)

/-- `urllib.parse.urlunsplit` specialised to the empty path, query and
fragment used by `get_url`: the netloc is included (prefixed by `//`)
exactly when it is truthy, and the scheme (always a non-empty string
at the call sites) is prefixed with a colon. -/
def pyUrlunsplit (scheme : String) (netloc : Val) : String :=
  let url := if netloc.truthy then "//" ++ netloc.toStr else ""
  if scheme != "" then scheme ++ ":" ++ url else url

/-- `ServerSettings.get_url`: falsy scheme defaults to `https`; a falsy
port leaves the netloc as the bare hostname, a truthy port appends
`:<port>` via `'{0}:{1}'.format(hostname, port)`. -/
def ServerSettings.get_url (g : ServerSettings) : String :=
  let scheme := if !g.scheme.truthy then "https" else g.scheme.toStr
  if !g.port.truthy then pyUrlunsplit scheme g.hostname
  else pyUrlunsplit scheme (.str (g.hostname.toStr ++ ":" ++ g.port.toStr))

/-- `ClientsSettings.__init__`. -/
structure ClientsSettings where
  image_dir : Val
  provisioning_server : Val
deriving Repr, DecidableEq

def ClientsSettings.init : ClientsSettings := ⟨.none, .none⟩

/-- `ClientsSettings.read`. -/
def ClientsSettings.read (g : ClientsSettings) (r : INIReader) :
    Except (PyError × ClientsSettings) ClientsSettings := do
  let g ← setF g (r.get "clients" "image_dir" (.str "/opt/robottelo/images") Option.none)
    (fun g v => { g with image_dir := v })
  let g ← setF g (r.get "clients" "provisioning_server" Val.none Option.none)
    (fun g v => { g with provisioning_server := v })
  return g

/-- `ClientsSettings.validate`. -/
def ClientsSettings.validate (g : ClientsSettings) : List String :=
  if g.provisioning_server = Val.none then
    ["[clients] provisioning_server option must be provided."] else []

/-- `DockerSettings.__init__`. -/
structure DockerSettings where
  unix_socket : Val
  external_url : Val
deriving Repr, DecidableEq

def DockerSettings.init : DockerSettings := ⟨.none, .none⟩

/-- `DockerSettings.read`. -/
def DockerSettings.read (g : DockerSettings) (r : INIReader) :
    Except (PyError × DockerSettings) DockerSettings := do
  let g ← setF g (r.get "docker" "unix_socket" (.bool false) (some .bool))
    (fun g v => { g with unix_socket := v })
  let g ← setF g (r.get "docker" "external_url" Val.none Option.none)
    (fun g v => { g with external_url := v })
  return g

/-- `DockerSettings.validate`: `any(vars(self).values())` ranges over
the two instance attributes `unix_socket` and `external_url`. -/
def DockerSettings.validate (g : DockerSettings) : List String :=
  if !(g.unix_socket.truthy || g.external_url.truthy) then
    ["Either [docker] unix_socket or external_url options must be provided or enabled."]
  else []

/-- `DockerSettings.get_unix_socket_url`: the fixed local socket URL
when the already-read `unix_socket` flag is truthy, else `None`. -/
def DockerSettings.get_unix_socket_url (g : DockerSettings) : Val :=
  if g.unix_socket.truthy then .str "unix:///var/run/docker.sock" else .none

/-- `FakeManifestSettings.__init__`. -/
structure FakeManifestSettings where
  cert_url : Val
  key_url : Val
  url : Val
deriving Repr, DecidableEq

def FakeManifestSettings.init : FakeManifestSettings := ⟨.none, .none, .none⟩

/-- `FakeManifestSettings.read`. -/
def FakeManifestSettings.read (g : FakeManifestSettings) (r : INIReader) :
    Except (PyError × FakeManifestSettings) FakeManifestSettings := do
  let g ← setF g (r.get "fake_manifest" "cert_url" Val.none Option.none)
    (fun g v => { g with cert_url := v })
  let g ← setF g (r.get "fake_manifest" "key_url" Val.none Option.none)
    (fun g v => { g with key_url := v })
  let g ← setF g (r.get "fake_manifest" "url" Val.none Option.none)
    (fun g v => { g with url := v })
  return g

/-- `FakeManifestSettings.validate`: `all(vars(self).values())` over
the three attributes. -/
def FakeManifestSettings.validate (g : FakeManifestSettings) : List String :=
  if !(g.cert_url.truthy && g.key_url.truthy && g.url.truthy) then
    ["All [fake_manifest] cert_url, key_url, url options must be provided."]
  else []

/-- `LDAPSettings.__init__`. -/
structure LDAPSettings where
  basedn : Val
  grpbasedn : Val
  hostname : Val
  password : Val
  username : Val
deriving Repr, DecidableEq

def LDAPSettings.init : LDAPSettings := ⟨.none, .none, .none, .none, .none⟩

/-- `LDAPSettings.read`. -/
def LDAPSettings.read (g : LDAPSettings) (r : INIReader) :
    Except (PyError × LDAPSettings) LDAPSettings := do
  let g ← setF g (r.get "ldap" "basedn" Val.none Option.none)
    (fun g v => { g with basedn := v })
  let g ← setF g (r.get "ldap" "grpbasedn" Val.none Option.none)
    (fun g v => { g with grpbasedn := v })
  let g ← setF g (r.get "ldap" "hostname" Val.none Option.none)
    (fun g v => { g with hostname := v })
  let g ← setF g (r.get "ldap" "password" Val.none Option.none)
    (fun g v => { g with password := v })
  let g ← setF g (r.get "ldap" "username" Val.none Option.none)
    (fun g v => { g with username := v })
  return g

/-- `LDAPSettings.validate`: `all(vars(self).values())` over the five
attributes. -/
def LDAPSettings.validate (g : LDAPSettings) : List String :=
  if !(g.basedn.truthy && g.grpbasedn.truthy && g.hostname.truthy &&
       g.password.truthy && g.username.truthy) then
    ["All [ldap] basedn, grpbasedn, hostname, password, username options must be provided."]
  else []

/-- `LibvirtHostSettings.__init__`. -/
structure LibvirtHostSettings where
  libvirt_image_dir : Val
  libvirt_hostname : Val
deriving Repr, DecidableEq

def LibvirtHostSettings.init : LibvirtHostSettings := ⟨.none, .none⟩

/-- `LibvirtHostSettings.read`. -/
def LibvirtHostSettings.read (g : LibvirtHostSettings) (r : INIReader) :
    Except (PyError × LibvirtHostSettings) LibvirtHostSettings := do
  let g ← setF g (r.get "compute_resources" "libvirt_image_dir"
      (.str "/var/lib/libvirt/images") Option.none)
    (fun g v => { g with libvirt_image_dir := v })
  let g ← setF g (r.get "compute_resources" "libvirt_hostname" Val.none Option.none)
    (fun g v => { g with libvirt_hostname := v })
  return g

/-- `LibvirtHostSettings.validate`. -/
def LibvirtHostSettings.validate (g : LibvirtHostSettings) : List String :=
  if g.libvirt_hostname = Val.none then
    ["[compute_resources] libvirt_hostname option must be provided."] else []

/-- `DiscoveryISOSettings.__init__`. -/
structure DiscoveryISOSettings where
  discovery_iso : Val
deriving Repr, DecidableEq

def DiscoveryISOSettings.init : DiscoveryISOSettings := ⟨.none⟩

/-- `DiscoveryISOSettings.read`. -/
def DiscoveryISOSettings.read (g : DiscoveryISOSettings) (r : INIReader) :
    Except (PyError × DiscoveryISOSettings) DiscoveryISOSettings := do
  let g ← setF g (r.get "discovery" "discovery_iso" Val.none Option.none)
    (fun g v => { g with discovery_iso := v })
  return g

/-- `DiscoveryISOSettings.validate`. -/
def DiscoveryISOSettings.validate (g : DiscoveryISOSettings) : List String :=
  if g.discovery_iso = Val.none then
    ["[discovery] discovery iso name must be provided."] else []

/-- `OscapSettings.__init__`. -/
structure OscapSettings where
  content_path : Val
deriving Repr, DecidableEq

def OscapSettings.init : OscapSettings := ⟨.none⟩

/-- `OscapSettings.read`. -/
def OscapSettings.read (g : OscapSettings) (r : INIReader) :
    Except (PyError × OscapSettings) OscapSettings := do
  let g ← setF g (r.get "oscap" "content_path" Val.none Option.none)
    (fun g v => { g with content_path := v })
  return g

/-- `OscapSettings.validate`. -/
def OscapSettings.validate (g : OscapSettings) : List String :=
  if g.content_path = Val.none then
    ["[oscap] content_path option must be provided."] else []

/-- `PerformanceSettings.__init__`. -/
structure PerformanceSettings where
  time_hammer : Val
  cdn_address : Val
  virtual_machines : Val
  fresh_install_savepoint : Val
  enabled_repos_savepoint : Val
  csv_buckets_count : Val
  sync_count : Val
  sync_type : Val
  repos : Val
deriving Repr, DecidableEq

def PerformanceSettings.init : PerformanceSettings :=
  ⟨.none, .none, .none, .none, .none, .none, .none, .none, .none⟩

/-- `PerformanceSettings.read`. -/
def PerformanceSettings.read (g : PerformanceSettings) (r : INIReader) :
    Except (PyError × PerformanceSettings) PerformanceSettings := do
  let g ← setF g (r.get "performance" "time_hammer" (.bool false) (some .bool))
    (fun g v => { g with time_hammer := v })
  let g ← setF g (r.get "performance" "cdn_address" Val.none Option.none)
    (fun g v => { g with cdn_address := v })
  let g ← setF g (r.get "performance" "virtual_machines" Val.none (some .list))
    (fun g v => { g with virtual_machines := v })
  let g ← setF g (r.get "performance" "fresh_install_savepoint" Val.none Option.none)
    (fun g v => { g with fresh_install_savepoint := v })
  let g ← setF g (r.get "performance" "enabled_repos_savepoint" Val.none Option.none)
    (fun g v => { g with enabled_repos_savepoint := v })
  let g ← setF g (r.get "performance" "csv_buckets_count" (.int 10) (some (.fn cast_int)))
    (fun g v => { g with csv_buckets_count := v })
  let g ← setF g (r.get "performance" "sync_count" (.int 3) (some (.fn cast_int)))
    (fun g v => { g with sync_count := v })
  let g ← setF g (r.get "performance" "sync_type" (.str "sync") Option.none)
    (fun g v => { g with sync_type := v })
  let g ← setF g (r.get "performance" "repos" Val.none (some .list))
    (fun g v => { g with repos := v })
  return g

/-- `PerformanceSettings.validate`: four `is None` checks in source
order. -/
def PerformanceSettings.validate (g : PerformanceSettings) : List String :=
  (if g.cdn_address = Val.none then
    ["[performance] cdn_address must be provided."] else []) ++
  (if g.virtual_machines = Val.none then
    ["[performance] virtual_machines must be provided."] else []) ++
  (if g.fresh_install_savepoint = Val.none then
    ["[performance] fresh_install_savepoint must be provided."] else []) ++
  (if g.enabled_repos_savepoint = Val.none then
    ["[performance] enabled_repos_savepoint must be provided."] else [])

/-- `RHAISettings.__init__`. -/
structure RHAISettings where
  insights_client_el6repo : Val
  insights_client_el7repo : Val
deriving Repr, DecidableEq

def RHAISettings.init : RHAISettings := ⟨.none, .none⟩

/-- `RHAISettings.read`. -/
def RHAISettings.read (g : RHAISettings) (r : INIReader) :
    Except (PyError × RHAISettings) RHAISettings := do
  let g ← setF g (r.get "rhai" "insights_client_el6repo" Val.none Option.none)
    (fun g v => { g with insights_client_el6repo := v })
  let g ← setF g (r.get "rhai" "insights_client_el7repo" Val.none Option.none)
    (fun g v => { g with insights_client_el7repo := v })
  return g

/-- `RHAISettings.validate`: always empty. -/
def RHAISettings.validate (_ : RHAISettings) : List String := []

/-- `TransitionSettings.__init__`. -/
structure TransitionSettings where
  exported_data : Val
deriving Repr, DecidableEq

def TransitionSettings.init : TransitionSettings := ⟨.none⟩

/-- `TransitionSettings.read`. -/
def TransitionSettings.read (g : TransitionSettings) (r : INIReader) :
    Except (PyError × TransitionSettings) TransitionSettings := do
  let g ← setF g (r.get "transition" "exported_data" Val.none Option.none)
    (fun g v => { g with exported_data := v })
  return g

/-- `TransitionSettings.validate`. -/
def TransitionSettings.validate (g : TransitionSettings) : List String :=
  if g.exported_data = Val.none then
    ["[transition] exported_data must be provided."] else []

/-- `VlanNetworkSettings.__init__`. -/
structure VlanNetworkSettings where
  subnet : Val
  netmask : Val
  gateway : Val
  bridge : Val
deriving Repr, DecidableEq

def VlanNetworkSettings.init : VlanNetworkSettings := ⟨.none, .none, .none, .none⟩

/-- `VlanNetworkSettings.read`. -/
def VlanNetworkSettings.read (g : VlanNetworkSettings) (r : INIReader) :
    Except (PyError × VlanNetworkSettings) VlanNetworkSettings := do
  let g ← setF g (r.get "vlan_networking" "subnet" Val.none Option.none)
    (fun g v => { g with subnet := v })
  let g ← setF g (r.get "vlan_networking" "netmask" Val.none Option.none)
    (fun g v => { g with netmask := v })
  let g ← setF g (r.get "vlan_networking" "gateway" Val.none Option.none)
    (fun g v => { g with gateway := v })
  let g ← setF g (r.get "vlan_networking" "bridge" Val.none Option.none)
    (fun g v => { g with bridge := v })
  return g

/-- `VlanNetworkSettings.validate`: `all(vars(self).values())` over the
four attributes. -/
def VlanNetworkSettings.validate (g : VlanNetworkSettings) : List String :=
  if !(g.subnet.truthy && g.netmask.truthy && g.gateway.truthy && g.bridge.truthy) then
    ["All [vlan_networking] subnet, netmask, gateway, bridge options must be provided."]
  else []

/-! ## The Settings aggregate -/

/-- `Settings.__init__` state (field order follows the assignment
order in `__init__`; `window_manager_command` is created later, by
`_read_robottelo_settings`, and `sideEffects` is the model's event log
for the step-7 process-wide side effects, not a Python attribute). -/
structure Settings where
  _all_features : Option (List String)
  _configured : Bool
  _validation_errors : List String
  browser : Val
  locale : Val
  project : Val
  reader : Option INIReader
  rhel6_repo : Val
  rhel7_repo : Val
  screenshots_path : Val
  saucelabs_key : Val
  saucelabs_user : Val
  server : ServerSettings
  run_one_datapoint : Val
  upstream : Val
  verbosity : Val
  webdriver : Val
  webdriver_binary : Val
  webdriver_desired_capabilities : Val
  clients : ClientsSettings
  compute_resources : LibvirtHostSettings
  discovery : DiscoveryISOSettings
  docker : DockerSettings
  fake_manifest : FakeManifestSettings
  ldap : LDAPSettings
  oscap : OscapSettings
  performance : PerformanceSettings
  rhai : RHAISettings
  transition : TransitionSettings
  vlan_networking : VlanNetworkSettings
  window_manager_command : Val
  sideEffects : List String
deriving Repr, DecidableEq

/-- `Settings.__init__`. -/
def Settings.init : Settings where
  _all_features := Option.none
  _configured := false
  _validation_errors := []
  browser := .none
  locale := .none
  project := .none
  reader := Option.none
  rhel6_repo := .none
  rhel7_repo := .none
  screenshots_path := .none
  saucelabs_key := .none
  saucelabs_user := .none
  server := ServerSettings.init
  run_one_datapoint := .none
  upstream := .none
  verbosity := .none
  webdriver := .none
  webdriver_binary := .none
  webdriver_desired_capabilities := .none
  clients := ClientsSettings.init
  compute_resources := LibvirtHostSettings.init
  discovery := DiscoveryISOSettings.init
  docker := DockerSettings.init
  fake_manifest := FakeManifestSettings.init
  ldap := LDAPSettings.init
  oscap := OscapSettings.init
  performance := PerformanceSettings.init
  rhai := RHAISettings.init
  transition := TransitionSettings.init
  vlan_networking := VlanNetworkSettings.init
  window_manager_command := .none
  sideEffects := []

/-- The `configured` property. -/
def Settings.configured (st : Settings) : Bool := st._configured

/-- The default for `verbosity` is computed at the call site by
applying `INIReader.cast_logging_level` to the literal string
`debug`; that application cannot fail. -/
def verbosityDefault : Val :=
  match cast_logging_level "debug" with
  | .ok v => v
  | .error _ => .none

/-- `Settings._read_robottelo_settings`: sequential assignments from
the `[robottelo]` section, in source order. -/
def Settings._read_robottelo_settings (st : Settings) (r : INIReader) :
    Except (PyError × Settings) Settings := do
  let st ← setF st (r.get "robottelo" "browser" (.str "selenium") Option.none)
    (fun s v => { s with browser := v })
  let st ← setF st (r.get "robottelo" "locale" (.str "en_US.UTF-8") Option.none)
    (fun s v => { s with locale := v })
  let st ← setF st (r.get "robottelo" "project" (.str "sat") Option.none)
    (fun s v => { s with project := v })
  let st ← setF st (r.get "robottelo" "rhel6_repo" Val.none Option.none)
    (fun s v => { s with rhel6_repo := v })
  let st ← setF st (r.get "robottelo" "rhel7_repo" Val.none Option.none)
    (fun s v => { s with rhel7_repo := v })
  let st ← setF st (r.get "robottelo" "screenshots_path"
      (.str "/tmp/robottelo/screenshots") Option.none)
    (fun s v => { s with screenshots_path := v })
  let st ← setF st (r.get "robottelo" "run_one_datapoint" (.bool false) (some .bool))
    (fun s v => { s with run_one_datapoint := v })
  let st ← setF st (r.get "robottelo" "upstream" (.bool true) (some .bool))
    (fun s v => { s with upstream := v })
  let st ← setF st (r.get "robottelo" "verbosity" verbosityDefault
      (some (.fn cast_logging_level)))
    (fun s v => { s with verbosity := v })
  let st ← setF st (r.get "robottelo" "webdriver" (.str "firefox") Option.none)
    (fun s v => { s with webdriver := v })
  let st ← setF st (r.get "robottelo" "saucelabs_user" Val.none Option.none)
    (fun s v => { s with saucelabs_user := v })
  let st ← setF st (r.get "robottelo" "saucelabs_key" Val.none Option.none)
    (fun s v => { s with saucelabs_key := v })
  let st ← setF st (r.get "robottelo" "webdriver_binary" Val.none Option.none)
    (fun s v => { s with webdriver_binary := v })
  let st ← setF st (r.get "robottelo" "webdriver_desired_capabilities" Val.none
      (some (.fn cast_webdriver_desired_capabilities)))
    (fun s v => { s with webdriver_desired_capabilities := v })
  let st ← setF st (r.get "robottelo" "window_manager_command" Val.none Option.none)
    (fun s v => { s with window_manager_command := v })
  return st

/-- The closed set of accepted browsers. -/
def browsers : List String := ["selenium", "docker", "saucelabs"]

/-- The closed set of accepted webdrivers. -/
def webdrivers : List String := ["chrome", "firefox", "ie", "phantomjs", "remote"]

/-- `Settings._validate_robottelo_settings`: the four checks append
their messages in source order (Python `in` on a tuple of strings is
equality against each element). -/
def Settings._validate_robottelo_settings (st : Settings) : List String :=
  (if ¬ (st.browser ∈ browsers.map Val.str) then
    ["[robottelo] browser should be one of selenium, docker, saucelabs."]
  else []) ++
  (if ¬ (st.webdriver ∈ webdrivers.map Val.str) then
    ["[robottelo] webdriver should be one of chrome, firefox, ie, phantomjs, remote."]
  else []) ++
  (if st.browser = .str "saucelabs" then
    (if st.saucelabs_user = Val.none then
      ["[robottelo] saucelabs_user must be provided when browser is saucelabs."]
    else []) ++
    (if st.saucelabs_key = Val.none then
      ["[robottelo] saucelabs_key must be provided when browser is saucelabs."]
    else [])
  else [])

/-! The per-section blocks of `configure()` (they are written inline
in the source; they are named here so that each can be reasoned about
separately). -/

/-- `configure()` lines: `self.server.read(self.reader)` followed by
`self._validation_errors.extend(self.server.validate())`
(unconditional). -/
def stepServer (r : INIReader) (st : Settings) : Except (PyError × Settings) Settings :=
  match st.server.read r with
  | .ok g => .ok { st with
      server := g,
      _validation_errors := st._validation_errors ++ g.validate }
  | .error (e, g) => .error (e, { st with server := g })

/-- `configure()`: the `[clients]` block, guarded by `has_section`. -/
def stepClients (r : INIReader) (st : Settings) : Except (PyError × Settings) Settings :=
  if r.has_section "clients" then
    match st.clients.read r with
    | .ok g => .ok { st with
        clients := g,
        _validation_errors := st._validation_errors ++ g.validate }
    | .error (e, g) => .error (e, { st with clients := g })
  else .ok st

/-- `configure()`: the `[compute_resources]` block. -/
def stepComputeResources (r : INIReader) (st : Settings) :
    Except (PyError × Settings) Settings :=
  if r.has_section "compute_resources" then
    match st.compute_resources.read r with
    | .ok g => .ok { st with
        compute_resources := g,
        _validation_errors := st._validation_errors ++ g.validate }
    | .error (e, g) => .error (e, { st with compute_resources := g })
  else .ok st

/-- `configure()`: the `[discovery]` block. -/
def stepDiscovery (r : INIReader) (st : Settings) : Except (PyError × Settings) Settings :=
  if r.has_section "discovery" then
    match st.discovery.read r with
    | .ok g => .ok { st with
        discovery := g,
        _validation_errors := st._validation_errors ++ g.validate }
    | .error (e, g) => .error (e, { st with discovery := g })
  else .ok st

/-- `configure()`: the `[docker]` block. -/
def stepDocker (r : INIReader) (st : Settings) : Except (PyError × Settings) Settings :=
  if r.has_section "docker" then
    match st.docker.read r with
    | .ok g => .ok { st with
        docker := g,
        _validation_errors := st._validation_errors ++ g.validate }
    | .error (e, g) => .error (e, { st with docker := g })
  else .ok st

/-- `configure()`: the `[fake_manifest]` block. -/
def stepFakeManifest (r : INIReader) (st : Settings) :
    Except (PyError × Settings) Settings :=
  if r.has_section "fake_manifest" then
    match st.fake_manifest.read r with
    | .ok g => .ok { st with
        fake_manifest := g,
        _validation_errors := st._validation_errors ++ g.validate }
    | .error (e, g) => .error (e, { st with fake_manifest := g })
  else .ok st

/-- `configure()`: the `[ldap]` block. -/
def stepLdap (r : INIReader) (st : Settings) : Except (PyError × Settings) Settings :=
  if r.has_section "ldap" then
    match st.ldap.read r with
    | .ok g => .ok { st with
        ldap := g,
        _validation_errors := st._validation_errors ++ g.validate }
    | .error (e, g) => .error (e, { st with ldap := g })
  else .ok st

/-- `configure()`: the `[oscap]` block. -/
def stepOscap (r : INIReader) (st : Settings) : Except (PyError × Settings) Settings :=
  if r.has_section "oscap" then
    match st.oscap.read r with
    | .ok g => .ok { st with
        oscap := g,
        _validation_errors := st._validation_errors ++ g.validate }
    | .error (e, g) => .error (e, { st with oscap := g })
  else .ok st

/-- `configure()`: the `[performance]` block. -/
def stepPerformance (r : INIReader) (st : Settings) :
    Except (PyError × Settings) Settings :=
  if r.has_section "performance" then
    match st.performance.read r with
    | .ok g => .ok { st with
        performance := g,
        _validation_errors := st._validation_errors ++ g.validate }
    | .error (e, g) => .error (e, { st with performance := g })
  else .ok st

/-- `configure()`: the `[rhai]` block. -/
def stepRhai (r : INIReader) (st : Settings) : Except (PyError × Settings) Settings :=
  if r.has_section "rhai" then
    match st.rhai.read r with
    | .ok g => .ok { st with
        rhai := g,
        _validation_errors := st._validation_errors ++ g.validate }
    | .error (e, g) => .error (e, { st with rhai := g })
  else .ok st

/-- `configure()`: the `[transition]` block. -/
def stepTransition (r : INIReader) (st : Settings) :
    Except (PyError × Settings) Settings :=
  if r.has_section "transition" then
    match st.transition.read r with
    | .ok g => .ok { st with
        transition := g,
        _validation_errors := st._validation_errors ++ g.validate }
    | .error (e, g) => .error (e, { st with transition := g })
  else .ok st

/-- `configure()`: the `[vlan_networking]` block. -/
def stepVlanNetworking (r : INIReader) (st : Settings) :
    Except (PyError × Settings) Settings :=
  if r.has_section "vlan_networking" then
    match st.vlan_networking.read r with
    | .ok g => .ok { st with
        vlan_networking := g,
        _validation_errors := st._validation_errors ++ g.validate }
    | .error (e, g) => .error (e, { st with vlan_networking := g })
  else .ok st

/-- The read-and-validate phase of `configure()` (everything between
the construction of the reader and the final error check): store the
reader, read and validate the global options, the server section, and
each optional section that is present, accumulating validation
errors. -/
def Settings.readAll (st : Settings) (r : INIReader) :
    Except (PyError × Settings) Settings := do
  let st := { st with reader := some r }
  let st ← st._read_robottelo_settings r
  let st := { st with
    _validation_errors := st._validation_errors ++ st._validate_robottelo_settings }
  let st ← stepServer r st
  let st ← stepClients r st
  let st ← stepComputeResources r st
  let st ← stepDiscovery r st
  let st ← stepDocker r st
  let st ← stepFakeManifest r st
  let st ← stepLdap r st
  let st ← stepOscap r st
  let st ← stepPerformance r st
  let st ← stepRhai r st
  let st ← stepTransition r st
  let st ← stepVlanNetworking r st
  return st

/-- The message of the aggregated validation failure. -/
def improperMsg (errs : List String) : String :=
  "Failed to validate the configuration, check the message(s):\n" ++
    pyJoin "\n" errs

/-- `Settings.configure`: skip silently when already configured; fail
when the settings file is missing; otherwise run the read/validate
phase, raise `ImproperlyConfigured` with all accumulated errors when
any exist, and only then perform the step-7 side effects and latch the
`configured` flag. -/
def Settings.configure (st : Settings) (file : Option INIReader) :
    Except (PyError × Settings) Settings :=
  if st.configured then .ok st
  else
    match file with
    | Option.none =>
      .error (.improperlyConfigured "Not able to find settings file", st)
    | some r =>
      match st.readAll r with
      | .error (e, st1) => .error (e, st1)
      | .ok st1 =>
        if st1._validation_errors ≠ [] then
          .error (.improperlyConfigured (improperMsg st1._validation_errors), st1)
        else
          .ok { st1 with
            sideEffects := st1.sideEffects ++
              ["_configure_logging", "_configure_third_party_logging",
               "_configure_entities"],
            _configured := true }

/-! ## `vars(self)` and the `all_features` property -/

/-- The dynamic value of one attribute of a `Settings` instance, as
seen by `vars(self)`; `isinstance(value, FeatureSettings)` holds
exactly for the twelve `feat*` constructors. -/
inductive PyAttr where
  | cache (c : Option (List String))
  | flag (b : Bool)
  | errList (l : List String)
  | value (v : Val)
  | rdr (r : Option INIReader)
  | featServer (g : ServerSettings)
  | featClients (g : ClientsSettings)
  | featLibvirt (g : LibvirtHostSettings)
  | featDiscovery (g : DiscoveryISOSettings)
  | featDocker (g : DockerSettings)
  | featFakeManifest (g : FakeManifestSettings)
  | featLdap (g : LDAPSettings)
  | featOscap (g : OscapSettings)
  | featPerformance (g : PerformanceSettings)
  | featRhai (g : RHAISettings)
  | featTransition (g : TransitionSettings)
  | featVlan (g : VlanNetworkSettings)
deriving Repr, DecidableEq

/-- `isinstance(value, FeatureSettings)`. -/
def PyAttr.isFeatureSettings : PyAttr → Bool
  | .featServer _ => true
  | .featClients _ => true
  | .featLibvirt _ => true
  | .featDiscovery _ => true
  | .featDocker _ => true
  | .featFakeManifest _ => true
  | .featLdap _ => true
  | .featOscap _ => true
  | .featPerformance _ => true
  | .featRhai _ => true
  | .featTransition _ => true
  | .featVlan _ => true
  | _ => false

/-- `vars(self).items()` on a `Settings` instance: the attribute
dictionary in `__init__` insertion order.  (`window_manager_command`
only enters the dictionary during `_read_robottelo_settings`; since it
is never a `FeatureSettings` instance it cannot affect `all_features`
and is left out of this listing.) -/
def Settings.vars (st : Settings) : List (String × PyAttr) :=
  [("_all_features", .cache st._all_features),
   ("_configured", .flag st._configured),
   ("_validation_errors", .errList st._validation_errors),
   ("browser", .value st.browser),
   ("locale", .value st.locale),
   ("project", .value st.project),
   ("reader", .rdr st.reader),
   ("rhel6_repo", .value st.rhel6_repo),
   ("rhel7_repo", .value st.rhel7_repo),
   ("screenshots_path", .value st.screenshots_path),
   ("saucelabs_key", .value st.saucelabs_key),
   ("saucelabs_user", .value st.saucelabs_user),
   ("server", .featServer st.server),
   ("run_one_datapoint", .value st.run_one_datapoint),
   ("upstream", .value st.upstream),
   ("verbosity", .value st.verbosity),
   ("webdriver", .value st.webdriver),
   ("webdriver_binary", .value st.webdriver_binary),
   ("webdriver_desired_capabilities", .value st.webdriver_desired_capabilities),
   ("clients", .featClients st.clients),
   ("compute_resources", .featLibvirt st.compute_resources),
   ("discovery", .featDiscovery st.discovery),
   ("docker", .featDocker st.docker),
   ("fake_manifest", .featFakeManifest st.fake_manifest),
   ("ldap", .featLdap st.ldap),
   ("oscap", .featOscap st.oscap),
   ("performance", .featPerformance st.performance),
   ("rhai", .featRhai st.rhai),
   ("transition", .featTransition st.transition),
   ("vlan_networking", .featVlan st.vlan_networking)]

/-- The `all_features` property: on first access compute the names of
the `FeatureSettings`-typed attributes and cache them in
`_all_features`; afterwards return the cached list.  The method both
returns the list and (possibly) mutates the instance, so it yields a
pair. -/
def Settings.all_features (st : Settings) : List String × Settings :=
  match st._all_features with
  | Option.none =>
    let fs := (st.vars.filter (fun p => p.2.isFeatureSettings)).map (fun p => p.1)
    (fs, { st with _all_features := some fs })
  | some fs => (fs, st)

/-! ## Inversion lemmas for the read phase -/

/-- The value produced by a cast-free `INIReader.get`: the raw string
when present, the default otherwise. -/
def INIReader.getD (r : INIReader) (sec opt : String) (d : Val) : Val :=
  match r.parserGet sec opt with
  | .ok v => .str v
  | .error _ => d

/-- `ConfigParser.get` only raises `NoSectionError` or
`NoOptionError`. -/
theorem parserGet_error_shape {r : INIReader} {sec opt : String} {e : PyError}
    (h : r.parserGet sec opt = .error e) :
    e = .noSection sec ∨ e = .noOption sec opt := by
  unfold INIReader.parserGet at h
  cases hs : r.sections.lookup sec with
  | none => simp [hs] at h; exact Or.inl h.symm
  | some opts =>
    simp only [hs] at h
    cases ho : opts.lookup opt with
    | none => simp [ho] at h; exact Or.inr h.symm
    | some v => simp [ho] at h

/-- A cast-free `get` never raises. -/
theorem get_noCast_eq (r : INIReader) (sec opt : String) (d : Val) :
    r.get sec opt d Option.none = .ok (r.getD sec opt d) := by
  unfold INIReader.get INIReader.getD
  cases h : r.parserGet sec opt with
  | ok v => simp
  | error e =>
    rcases parserGet_error_shape h with rfl | rfl <;> simp

/-- Inversion for `_read_robottelo_settings`: on success only the
global scalar options change, and the cast-free options of interest
take their looked-up (or default) values. -/
theorem rob_read_ok {r : INIReader} {st st2 : Settings}
    (h : st._read_robottelo_settings r = .ok st2) :
    ∃ vl vp v6 v7 vsp vrod vup vvb vwb vwdc vwmc,
    st2 = { st with
      browser := r.getD "robottelo" "browser" (.str "selenium"),
      locale := vl, project := vp, rhel6_repo := v6, rhel7_repo := v7,
      screenshots_path := vsp, run_one_datapoint := vrod, upstream := vup,
      verbosity := vvb,
      webdriver := r.getD "robottelo" "webdriver" (.str "firefox"),
      saucelabs_user := r.getD "robottelo" "saucelabs_user" Val.none,
      saucelabs_key := r.getD "robottelo" "saucelabs_key" Val.none,
      webdriver_binary := vwb, webdriver_desired_capabilities := vwdc,
      window_manager_command := vwmc } := by
  unfold Settings._read_robottelo_settings at h
  obtain ⟨s1, h1, h⟩ := exceptBind_ok h
  obtain ⟨x1, hx1, rfl⟩ := setF_ok h1
  obtain ⟨s2, h2, h⟩ := exceptBind_ok h
  obtain ⟨x2, -, rfl⟩ := setF_ok h2
  obtain ⟨s3, h3, h⟩ := exceptBind_ok h
  obtain ⟨x3, -, rfl⟩ := setF_ok h3
  obtain ⟨s4, h4, h⟩ := exceptBind_ok h
  obtain ⟨x4, -, rfl⟩ := setF_ok h4
  obtain ⟨s5, h5, h⟩ := exceptBind_ok h
  obtain ⟨x5, -, rfl⟩ := setF_ok h5
  obtain ⟨s6, h6, h⟩ := exceptBind_ok h
  obtain ⟨x6, -, rfl⟩ := setF_ok h6
  obtain ⟨s7, h7, h⟩ := exceptBind_ok h
  obtain ⟨x7, -, rfl⟩ := setF_ok h7
  obtain ⟨s8, h8, h⟩ := exceptBind_ok h
  obtain ⟨x8, -, rfl⟩ := setF_ok h8
  obtain ⟨s9, h9, h⟩ := exceptBind_ok h
  obtain ⟨x9, -, rfl⟩ := setF_ok h9
  obtain ⟨s10, h10, h⟩ := exceptBind_ok h
  obtain ⟨x10, hx10, rfl⟩ := setF_ok h10
  obtain ⟨s11, h11, h⟩ := exceptBind_ok h
  obtain ⟨x11, hx11, rfl⟩ := setF_ok h11
  obtain ⟨s12, h12, h⟩ := exceptBind_ok h
  obtain ⟨x12, hx12, rfl⟩ := setF_ok h12
  obtain ⟨s13, h13, h⟩ := exceptBind_ok h
  obtain ⟨x13, -, rfl⟩ := setF_ok h13
  obtain ⟨s14, h14, h⟩ := exceptBind_ok h
  obtain ⟨x14, -, rfl⟩ := setF_ok h14
  obtain ⟨s15, h15, h⟩ := exceptBind_ok h
  obtain ⟨x15, -, rfl⟩ := setF_ok h15
  rw [get_noCast_eq] at hx1 hx10 hx11 hx12
  injection hx1 with e1
  injection hx10 with e10
  injection hx11 with e11
  injection hx12 with e12
  subst e1; subst e10; subst e11; subst e12
  simp only [pure, Except.pure, Except.ok.injEq] at h
  subst h
  exact ⟨x2, x3, x4, x5, x6, x7, x8, x9, x13, x14, x15, by simp⟩

/-- Inversion for the unconditional server block of `configure()`. -/
theorem stepServer_ok {r : INIReader} {st st2 : Settings}
    (h : stepServer r st = .ok st2) :
    ∃ g, st2 = { st with
          server := g,
          _validation_errors := st._validation_errors ++ g.validate } ∧
      st.server.read r = .ok g := by
  unfold stepServer at h
  cases hr : st.server.read r with
  | ok g => rw [hr] at h; simp at h; subst h; exact ⟨g, rfl, rfl⟩
  | error p => obtain ⟨e, g⟩ := p; rw [hr] at h; simp at h

/-- Inversion for the optional `[clients]` block of `configure()`. -/
theorem stepClients_ok {r : INIReader} {st st2 : Settings}
    (h : stepClients r st = .ok st2) :
    ∃ g, st2 = { st with
          clients := g,
          _validation_errors := st._validation_errors ++
            (if r.has_section "clients" then g.validate else []) } ∧
      (r.has_section "clients" = false → g = st.clients) ∧
      (r.has_section "clients" = true → st.clients.read r = .ok g) := by
  unfold stepClients at h
  cases hs : r.has_section "clients" with
  | false =>
    rw [hs] at h
    simp at h
    subst h
    exact ⟨st.clients, by simp [hs], fun _ => rfl, by simp [hs]⟩
  | true =>
    rw [hs] at h
    simp only [if_true] at h
    cases hr : st.clients.read r with
    | ok g =>
      rw [hr] at h
      simp at h
      subst h
      exact ⟨g, by simp [hs], by simp [hs], fun _ => rfl⟩
    | error p =>
      obtain ⟨e, g⟩ := p
      rw [hr] at h
      simp at h

/-- Inversion for the optional `[compute_resources]` block of `configure()`. -/
theorem stepComputeResources_ok {r : INIReader} {st st2 : Settings}
    (h : stepComputeResources r st = .ok st2) :
    ∃ g, st2 = { st with
          compute_resources := g,
          _validation_errors := st._validation_errors ++
            (if r.has_section "compute_resources" then g.validate else []) } ∧
      (r.has_section "compute_resources" = false → g = st.compute_resources) ∧
      (r.has_section "compute_resources" = true → st.compute_resources.read r = .ok g) := by
  unfold stepComputeResources at h
  cases hs : r.has_section "compute_resources" with
  | false =>
    rw [hs] at h
    simp at h
    subst h
    exact ⟨st.compute_resources, by simp [hs], fun _ => rfl, by simp [hs]⟩
  | true =>
    rw [hs] at h
    simp only [if_true] at h
    cases hr : st.compute_resources.read r with
    | ok g =>
      rw [hr] at h
      simp at h
      subst h
      exact ⟨g, by simp [hs], by simp [hs], fun _ => rfl⟩
    | error p =>
      obtain ⟨e, g⟩ := p
      rw [hr] at h
      simp at h

/-- Inversion for the optional `[discovery]` block of `configure()`. -/
theorem stepDiscovery_ok {r : INIReader} {st st2 : Settings}
    (h : stepDiscovery r st = .ok st2) :
    ∃ g, st2 = { st with
          discovery := g,
          _validation_errors := st._validation_errors ++
            (if r.has_section "discovery" then g.validate else []) } ∧
      (r.has_section "discovery" = false → g = st.discovery) ∧
      (r.has_section "discovery" = true → st.discovery.read r = .ok g) := by
  unfold stepDiscovery at h
  cases hs : r.has_section "discovery" with
  | false =>
    rw [hs] at h
    simp at h
    subst h
    exact ⟨st.discovery, by simp [hs], fun _ => rfl, by simp [hs]⟩
  | true =>
    rw [hs] at h
    simp only [if_true] at h
    cases hr : st.discovery.read r with
    | ok g =>
      rw [hr] at h
      simp at h
      subst h
      exact ⟨g, by simp [hs], by simp [hs], fun _ => rfl⟩
    | error p =>
      obtain ⟨e, g⟩ := p
      rw [hr] at h
      simp at h

/-- Inversion for the optional `[docker]` block of `configure()`. -/
theorem stepDocker_ok {r : INIReader} {st st2 : Settings}
    (h : stepDocker r st = .ok st2) :
    ∃ g, st2 = { st with
          docker := g,
          _validation_errors := st._validation_errors ++
            (if r.has_section "docker" then g.validate else []) } ∧
      (r.has_section "docker" = false → g = st.docker) ∧
      (r.has_section "docker" = true → st.docker.read r = .ok g) := by
  unfold stepDocker at h
  cases hs : r.has_section "docker" with
  | false =>
    rw [hs] at h
    simp at h
    subst h
    exact ⟨st.docker, by simp [hs], fun _ => rfl, by simp [hs]⟩
  | true =>
    rw [hs] at h
    simp only [if_true] at h
    cases hr : st.docker.read r with
    | ok g =>
      rw [hr] at h
      simp at h
      subst h
      exact ⟨g, by simp [hs], by simp [hs], fun _ => rfl⟩
    | error p =>
      obtain ⟨e, g⟩ := p
      rw [hr] at h
      simp at h

/-- Inversion for the optional `[fake_manifest]` block of `configure()`. -/
theorem stepFakeManifest_ok {r : INIReader} {st st2 : Settings}
    (h : stepFakeManifest r st = .ok st2) :
    ∃ g, st2 = { st with
          fake_manifest := g,
          _validation_errors := st._validation_errors ++
            (if r.has_section "fake_manifest" then g.validate else []) } ∧
      (r.has_section "fake_manifest" = false → g = st.fake_manifest) ∧
      (r.has_section "fake_manifest" = true → st.fake_manifest.read r = .ok g) := by
  unfold stepFakeManifest at h
  cases hs : r.has_section "fake_manifest" with
  | false =>
    rw [hs] at h
    simp at h
    subst h
    exact ⟨st.fake_manifest, by simp [hs], fun _ => rfl, by simp [hs]⟩
  | true =>
    rw [hs] at h
    simp only [if_true] at h
    cases hr : st.fake_manifest.read r with
    | ok g =>
      rw [hr] at h
      simp at h
      subst h
      exact ⟨g, by simp [hs], by simp [hs], fun _ => rfl⟩
    | error p =>
      obtain ⟨e, g⟩ := p
      rw [hr] at h
      simp at h

/-- Inversion for the optional `[ldap]` block of `configure()`. -/
theorem stepLdap_ok {r : INIReader} {st st2 : Settings}
    (h : stepLdap r st = .ok st2) :
    ∃ g, st2 = { st with
          ldap := g,
          _validation_errors := st._validation_errors ++
            (if r.has_section "ldap" then g.validate else []) } ∧
      (r.has_section "ldap" = false → g = st.ldap) ∧
      (r.has_section "ldap" = true → st.ldap.read r = .ok g) := by
  unfold stepLdap at h
  cases hs : r.has_section "ldap" with
  | false =>
    rw [hs] at h
    simp at h
    subst h
    exact ⟨st.ldap, by simp [hs], fun _ => rfl, by simp [hs]⟩
  | true =>
    rw [hs] at h
    simp only [if_true] at h
    cases hr : st.ldap.read r with
    | ok g =>
      rw [hr] at h
      simp at h
      subst h
      exact ⟨g, by simp [hs], by simp [hs], fun _ => rfl⟩
    | error p =>
      obtain ⟨e, g⟩ := p
      rw [hr] at h
      simp at h

/-- Inversion for the optional `[oscap]` block of `configure()`. -/
theorem stepOscap_ok {r : INIReader} {st st2 : Settings}
    (h : stepOscap r st = .ok st2) :
    ∃ g, st2 = { st with
          oscap := g,
          _validation_errors := st._validation_errors ++
            (if r.has_section "oscap" then g.validate else []) } ∧
      (r.has_section "oscap" = false → g = st.oscap) ∧
      (r.has_section "oscap" = true → st.oscap.read r = .ok g) := by
  unfold stepOscap at h
  cases hs : r.has_section "oscap" with
  | false =>
    rw [hs] at h
    simp at h
    subst h
    exact ⟨st.oscap, by simp [hs], fun _ => rfl, by simp [hs]⟩
  | true =>
    rw [hs] at h
    simp only [if_true] at h
    cases hr : st.oscap.read r with
    | ok g =>
      rw [hr] at h
      simp at h
      subst h
      exact ⟨g, by simp [hs], by simp [hs], fun _ => rfl⟩
    | error p =>
      obtain ⟨e, g⟩ := p
      rw [hr] at h
      simp at h

/-- Inversion for the optional `[performance]` block of `configure()`. -/
theorem stepPerformance_ok {r : INIReader} {st st2 : Settings}
    (h : stepPerformance r st = .ok st2) :
    ∃ g, st2 = { st with
          performance := g,
          _validation_errors := st._validation_errors ++
            (if r.has_section "performance" then g.validate else []) } ∧
      (r.has_section "performance" = false → g = st.performance) ∧
      (r.has_section "performance" = true → st.performance.read r = .ok g) := by
  unfold stepPerformance at h
  cases hs : r.has_section "performance" with
  | false =>
    rw [hs] at h
    simp at h
    subst h
    exact ⟨st.performance, by simp [hs], fun _ => rfl, by simp [hs]⟩
  | true =>
    rw [hs] at h
    simp only [if_true] at h
    cases hr : st.performance.read r with
    | ok g =>
      rw [hr] at h
      simp at h
      subst h
      exact ⟨g, by simp [hs], by simp [hs], fun _ => rfl⟩
    | error p =>
      obtain ⟨e, g⟩ := p
      rw [hr] at h
      simp at h

/-- Inversion for the optional `[rhai]` block of `configure()`. -/
theorem stepRhai_ok {r : INIReader} {st st2 : Settings}
    (h : stepRhai r st = .ok st2) :
    ∃ g, st2 = { st with
          rhai := g,
          _validation_errors := st._validation_errors ++
            (if r.has_section "rhai" then g.validate else []) } ∧
      (r.has_section "rhai" = false → g = st.rhai) ∧
      (r.has_section "rhai" = true → st.rhai.read r = .ok g) := by
  unfold stepRhai at h
  cases hs : r.has_section "rhai" with
  | false =>
    rw [hs] at h
    simp at h
    subst h
    exact ⟨st.rhai, by simp [hs], fun _ => rfl, by simp [hs]⟩
  | true =>
    rw [hs] at h
    simp only [if_true] at h
    cases hr : st.rhai.read r with
    | ok g =>
      rw [hr] at h
      simp at h
      subst h
      exact ⟨g, by simp [hs], by simp [hs], fun _ => rfl⟩
    | error p =>
      obtain ⟨e, g⟩ := p
      rw [hr] at h
      simp at h

/-- Inversion for the optional `[transition]` block of `configure()`. -/
theorem stepTransition_ok {r : INIReader} {st st2 : Settings}
    (h : stepTransition r st = .ok st2) :
    ∃ g, st2 = { st with
          transition := g,
          _validation_errors := st._validation_errors ++
            (if r.has_section "transition" then g.validate else []) } ∧
      (r.has_section "transition" = false → g = st.transition) ∧
      (r.has_section "transition" = true → st.transition.read r = .ok g) := by
  unfold stepTransition at h
  cases hs : r.has_section "transition" with
  | false =>
    rw [hs] at h
    simp at h
    subst h
    exact ⟨st.transition, by simp [hs], fun _ => rfl, by simp [hs]⟩
  | true =>
    rw [hs] at h
    simp only [if_true] at h
    cases hr : st.transition.read r with
    | ok g =>
      rw [hr] at h
      simp at h
      subst h
      exact ⟨g, by simp [hs], by simp [hs], fun _ => rfl⟩
    | error p =>
      obtain ⟨e, g⟩ := p
      rw [hr] at h
      simp at h

/-- Inversion for the optional `[vlan_networking]` block of `configure()`. -/
theorem stepVlanNetworking_ok {r : INIReader} {st st2 : Settings}
    (h : stepVlanNetworking r st = .ok st2) :
    ∃ g, st2 = { st with
          vlan_networking := g,
          _validation_errors := st._validation_errors ++
            (if r.has_section "vlan_networking" then g.validate else []) } ∧
      (r.has_section "vlan_networking" = false → g = st.vlan_networking) ∧
      (r.has_section "vlan_networking" = true → st.vlan_networking.read r = .ok g) := by
  unfold stepVlanNetworking at h
  cases hs : r.has_section "vlan_networking" with
  | false =>
    rw [hs] at h
    simp at h
    subst h
    exact ⟨st.vlan_networking, by simp [hs], fun _ => rfl, by simp [hs]⟩
  | true =>
    rw [hs] at h
    simp only [if_true] at h
    cases hr : st.vlan_networking.read r with
    | ok g =>
      rw [hr] at h
      simp at h
      subst h
      exact ⟨g, by simp [hs], by simp [hs], fun _ => rfl⟩
    | error p =>
      obtain ⟨e, g⟩ := p
      rw [hr] at h
      simp at h

/-- Master inversion for the read/validate phase of `configure()`:
on success the configured flag, cached feature list and side-effect
log are untouched, the scalar options of interest hold their
looked-up values, the server group is read unconditionally, each
optional group is read exactly when its section is present, and the
error list is extended by the concatenation of the validations that
ran, in source order. -/
theorem readAll_ok {r : INIReader} {st st2 : Settings}
    (h : st.readAll r = .ok st2) :
    st2._all_features = st._all_features ∧
    st2._configured = st._configured ∧
    st2.sideEffects = st.sideEffects ∧
    st2.browser = r.getD "robottelo" "browser" (.str "selenium") ∧
    st2.webdriver = r.getD "robottelo" "webdriver" (.str "firefox") ∧
    st2.saucelabs_user = r.getD "robottelo" "saucelabs_user" Val.none ∧
    st2.saucelabs_key = r.getD "robottelo" "saucelabs_key" Val.none ∧
    st.server.read r = .ok st2.server ∧
    (r.has_section "clients" = false → st2.clients = st.clients) ∧
    (r.has_section "clients" = true → st.clients.read r = .ok st2.clients) ∧
    (r.has_section "compute_resources" = false → st2.compute_resources = st.compute_resources) ∧
    (r.has_section "compute_resources" = true → st.compute_resources.read r = .ok st2.compute_resources) ∧
    (r.has_section "discovery" = false → st2.discovery = st.discovery) ∧
    (r.has_section "discovery" = true → st.discovery.read r = .ok st2.discovery) ∧
    (r.has_section "docker" = false → st2.docker = st.docker) ∧
    (r.has_section "docker" = true → st.docker.read r = .ok st2.docker) ∧
    (r.has_section "fake_manifest" = false → st2.fake_manifest = st.fake_manifest) ∧
    (r.has_section "fake_manifest" = true → st.fake_manifest.read r = .ok st2.fake_manifest) ∧
    (r.has_section "ldap" = false → st2.ldap = st.ldap) ∧
    (r.has_section "ldap" = true → st.ldap.read r = .ok st2.ldap) ∧
    (r.has_section "oscap" = false → st2.oscap = st.oscap) ∧
    (r.has_section "oscap" = true → st.oscap.read r = .ok st2.oscap) ∧
    (r.has_section "performance" = false → st2.performance = st.performance) ∧
    (r.has_section "performance" = true → st.performance.read r = .ok st2.performance) ∧
    (r.has_section "rhai" = false → st2.rhai = st.rhai) ∧
    (r.has_section "rhai" = true → st.rhai.read r = .ok st2.rhai) ∧
    (r.has_section "transition" = false → st2.transition = st.transition) ∧
    (r.has_section "transition" = true → st.transition.read r = .ok st2.transition) ∧
    (r.has_section "vlan_networking" = false → st2.vlan_networking = st.vlan_networking) ∧
    (r.has_section "vlan_networking" = true → st.vlan_networking.read r = .ok st2.vlan_networking) ∧
    st2._validation_errors = st._validation_errors ++
      Settings._validate_robottelo_settings st2 ++
      st2.server.validate ++
      (if r.has_section "clients" then st2.clients.validate else []) ++
      (if r.has_section "compute_resources" then st2.compute_resources.validate else []) ++
      (if r.has_section "discovery" then st2.discovery.validate else []) ++
      (if r.has_section "docker" then st2.docker.validate else []) ++
      (if r.has_section "fake_manifest" then st2.fake_manifest.validate else []) ++
      (if r.has_section "ldap" then st2.ldap.validate else []) ++
      (if r.has_section "oscap" then st2.oscap.validate else []) ++
      (if r.has_section "performance" then st2.performance.validate else []) ++
      (if r.has_section "rhai" then st2.rhai.validate else []) ++
      (if r.has_section "transition" then st2.transition.validate else []) ++
      (if r.has_section "vlan_networking" then st2.vlan_networking.validate else []) := by
  unfold Settings.readAll at h
  obtain ⟨a, hrob, h⟩ := exceptBind_ok h
  obtain ⟨vl, vp, v6, v7, vsp, vrod, vup, vvb, vwb, vwdc, vwmc, rfl⟩ := rob_read_ok hrob
  obtain ⟨b, hsrv, h⟩ := exceptBind_ok h
  obtain ⟨gs, rfl, hgs⟩ := stepServer_ok hsrv
  obtain ⟨c1, hc1, h⟩ := exceptBind_ok h
  obtain ⟨g1, rfl, gab1, gpr1⟩ := stepClients_ok hc1
  obtain ⟨c2, hc2, h⟩ := exceptBind_ok h
  obtain ⟨g2, rfl, gab2, gpr2⟩ := stepComputeResources_ok hc2
  obtain ⟨c3, hc3, h⟩ := exceptBind_ok h
  obtain ⟨g3, rfl, gab3, gpr3⟩ := stepDiscovery_ok hc3
  obtain ⟨c4, hc4, h⟩ := exceptBind_ok h
  obtain ⟨g4, rfl, gab4, gpr4⟩ := stepDocker_ok hc4
  obtain ⟨c5, hc5, h⟩ := exceptBind_ok h
  obtain ⟨g5, rfl, gab5, gpr5⟩ := stepFakeManifest_ok hc5
  obtain ⟨c6, hc6, h⟩ := exceptBind_ok h
  obtain ⟨g6, rfl, gab6, gpr6⟩ := stepLdap_ok hc6
  obtain ⟨c7, hc7, h⟩ := exceptBind_ok h
  obtain ⟨g7, rfl, gab7, gpr7⟩ := stepOscap_ok hc7
  obtain ⟨c8, hc8, h⟩ := exceptBind_ok h
  obtain ⟨g8, rfl, gab8, gpr8⟩ := stepPerformance_ok hc8
  obtain ⟨c9, hc9, h⟩ := exceptBind_ok h
  obtain ⟨g9, rfl, gab9, gpr9⟩ := stepRhai_ok hc9
  obtain ⟨c10, hc10, h⟩ := exceptBind_ok h
  obtain ⟨g10, rfl, gab10, gpr10⟩ := stepTransition_ok hc10
  obtain ⟨c11, hc11, h⟩ := exceptBind_ok h
  obtain ⟨g11, rfl, gab11, gpr11⟩ := stepVlanNetworking_ok hc11
  simp only [pure, Except.pure, Except.ok.injEq] at h
  subst h
  refine ⟨by simp, by simp, by simp, by simp, by simp, by simp, by simp,
    by simpa using hgs, fun hs => by simpa using gab1 hs,
    fun hs => by simpa using gpr1 hs,
    fun hs => by simpa using gab2 hs,
    fun hs => by simpa using gpr2 hs,
    fun hs => by simpa using gab3 hs,
    fun hs => by simpa using gpr3 hs,
    fun hs => by simpa using gab4 hs,
    fun hs => by simpa using gpr4 hs,
    fun hs => by simpa using gab5 hs,
    fun hs => by simpa using gpr5 hs,
    fun hs => by simpa using gab6 hs,
    fun hs => by simpa using gpr6 hs,
    fun hs => by simpa using gab7 hs,
    fun hs => by simpa using gpr7 hs,
    fun hs => by simpa using gab8 hs,
    fun hs => by simpa using gpr8 hs,
    fun hs => by simpa using gab9 hs,
    fun hs => by simpa using gpr9 hs,
    fun hs => by simpa using gab10 hs,
    fun hs => by simpa using gpr10 hs,
    fun hs => by simpa using gab11 hs,
    fun hs => by simpa using gpr11 hs, ?_⟩
  simp [Settings._validate_robottelo_settings]

/-- A string with a colon glued in the middle is never empty. -/
theorem strColon_ne (h p : String) : (h ++ ":" ++ p) ≠ "" := by
  intro he
  have hlen := congrArg String.length he
  simp at hlen
  exact absurd hlen.1.2 (by decide)

/-- C4: for every `ServerSettings` with hostname set, `get_url()` uses
scheme `https` when the scheme field is unset (`None`) or empty and
otherwise the configured scheme; it appends `:<port>` to the hostname
exactly when the port is set and truthy; the scheme component never
depends on the port. -/
theorem c4_get_url (s : ServerSettings) (h : String)
    (hh : s.hostname = .str h) (hne : h ≠ "") :
    ((s.scheme = Val.none ∨ s.scheme = .str "") →
      s.get_url = "https://" ++ h ++
        (if s.port.truthy then ":" ++ s.port.toStr else "")) ∧
    (∀ sch : String, sch ≠ "" → s.scheme = .str sch →
      s.get_url = sch ++ "://" ++ h ++
        (if s.port.truthy then ":" ++ s.port.toStr else "")) := by
  constructor
  · intro hsc
    have hsf : s.scheme.truthy = false := by
      rcases hsc with h1 | h1 <;> simp [h1, Val.truthy]
    unfold ServerSettings.get_url pyUrlunsplit
    cases hp : s.port.truthy with
    | false =>
      simp only [hsf, hp, Bool.not_false, if_true, if_false, Bool.false_eq_true, hh]
      simp [Val.truthy, Val.toStr, bne_iff_ne, hne, ← String.append_assoc]
    | true =>
      simp only [hsf, hp, hh]
      simp [Val.truthy, Val.toStr, bne_iff_ne, strColon_ne, ← String.append_assoc]
  · intro sch hsne hsc
    have hst : s.scheme.truthy = true := by simp [hsc, Val.truthy, bne_iff_ne, hsne]
    unfold ServerSettings.get_url pyUrlunsplit
    cases hp : s.port.truthy with
    | false =>
      simp only [hst, hp, hh, hsc]
      simp [Val.truthy, Val.toStr, bne_iff_ne, hne, hsne, ← String.append_assoc]
      rw [String.append_assoc sch ":" "//"]
      simp
    | true =>
      simp only [hst, hp, hh, hsc]
      simp [Val.truthy, Val.toStr, bne_iff_ne, hsne, strColon_ne, ← String.append_assoc]
      rw [String.append_assoc sch ":" "//"]
      simp

/-! ## Claim theorems -/

/-- C2: on an instance whose `configured` flag is true, `configure()`
is a silent no-op: no file access, no re-validation, no exception, no
state change. -/
theorem c2_configure_skip (st : Settings) (file : Option INIReader)
    (h : st.configured = true) : st.configure file = .ok st := by
  unfold Settings.configure
  simp [h]

/-- When the read phase succeeds but leaves validation errors,
`configure` raises the aggregated `ImproperlyConfigured` and returns
the post-read state. -/
theorem configure_fails_of_errors {st st1 : Settings} {r : INIReader}
    (hc : st.configured = false) (hra : st.readAll r = .ok st1)
    (he : st1._validation_errors ≠ []) :
    st.configure (some r) =
      .error (.improperlyConfigured (improperMsg st1._validation_errors), st1) := by
  unfold Settings.configure
  simp [hc, hra, he]

/-- C1: whenever the read phase of `configure()` accumulates a
non-empty validation-error list, `configure()` raises
`ImproperlyConfigured` whose message joins all error strings one per
line, the configured flag stays false, and no step-7 side effect is
performed. -/
theorem c1_validation_failure_atomic (st st1 : Settings) (r : INIReader)
    (hc : st.configured = false) (hra : st.readAll r = .ok st1)
    (he : st1._validation_errors ≠ []) :
    st.configure (some r) =
      .error (.improperlyConfigured (improperMsg st1._validation_errors), st1) ∧
    st1._configured = false ∧
    st1.sideEffects = st.sideEffects := by
  have R := readAll_ok hra
  exact ⟨configure_fails_of_errors hc hra he, R.2.1.trans hc, R.2.2.1⟩

/-- The read phase only ever appends to the validation-error list. -/
theorem readAll_errs {r : INIReader} {st st2 : Settings}
    (h : st.readAll r = .ok st2) :
    ∃ l, st2._validation_errors = st._validation_errors ++ l := by
  obtain ⟨-, -, -, -, -, -, -, -, -, -, -, -, -, -, -, -, -, -, -, -, -,
    -, -, -, -, -, -, -, -, -, herr⟩ := readAll_ok h
  simp only [List.append_assoc] at herr
  exact ⟨_, herr⟩

/-- C10: after `configure()` fails on validation errors the error list
is retained (never cleared) and the flag stays false, so any later
`configure()` run whose read phase succeeds fails again with a message
that still carries the old errors as a prefix of its error list, even
if the new settings source is valid. -/
theorem c10_stale_errors_resurface (st st1 : Settings) (r : INIReader)
    (hc : st.configured = false) (hra : st.readAll r = .ok st1)
    (he : st1._validation_errors ≠ []) :
    st.configure (some r) =
      .error (.improperlyConfigured (improperMsg st1._validation_errors), st1) ∧
    st1._configured = false ∧
    (∀ r2 st3, st1.readAll r2 = .ok st3 →
      st1._validation_errors <+: st3._validation_errors ∧
      st3._validation_errors ≠ [] ∧
      st1.configure (some r2) =
        .error (.improperlyConfigured (improperMsg st3._validation_errors), st3)) := by
  have R := readAll_ok hra
  have hc1 : st1.configured = false := R.2.1.trans hc
  refine ⟨configure_fails_of_errors hc hra he, hc1, ?_⟩
  intro r2 st3 hra2
  obtain ⟨l2, hl2⟩ := readAll_errs hra2
  have hpre : st1._validation_errors <+: st3._validation_errors := ⟨l2, hl2.symm⟩
  have hne3 : st3._validation_errors ≠ [] := by
    intro h0
    rw [h0] at hpre
    exact he (List.eq_nil_of_prefix_nil hpre)
  exact ⟨hpre, hne3, configure_fails_of_errors hc1 hra2 hne3⟩

/-- C5: `INIReader.get` returns the default unchanged (no cast applied
to it) exactly when the section or option is absent; when the option
is present it applies the dispatched cast to the raw string, or
returns the raw string when no cast is given. -/
theorem c5_get_default_or_cast (r : INIReader) (sec opt : String) (d : Val)
    (c : Option Cast) :
    (∀ e, r.parserGet sec opt = .error e → r.get sec opt d c = .ok d) ∧
    (∀ v, r.parserGet sec opt = .ok v →
      r.get sec opt d c =
        match c with
        | Option.none => .ok (.str v)
        | some .bool => cast_boolean v
        | some .dict => cast_dict v
        | some .list => cast_list v
        | some .tuple => cast_tuple v
        | some (.fn f) => f v) := by
  constructor
  · intro e he
    unfold INIReader.get
    rcases parserGet_error_shape he with rfl | rfl <;> rw [he]
  · intro v hv
    unfold INIReader.get
    rw [hv]

/-- C6: a failing cast on a present option value escapes
`INIReader.get` uncaught, propagates through the group `read()` (shown
for the docker group) and out of `configure()` unchanged — it is never
turned into a validation-error string. -/
theorem c6_cast_error_uncaught :
    (∀ (r : INIReader) (sec opt : String) (d : Val)
       (f : String → Except PyError Val) (v : String) (e : PyError),
      r.parserGet sec opt = .ok v → f v = .error e →
      r.get sec opt d (some (.fn f)) = .error e) ∧
    (∀ (r : INIReader) (g : DockerSettings) (v : String) (e : PyError),
      r.parserGet "docker" "unix_socket" = .ok v → cast_boolean v = .error e →
      g.read r = .error (e, g)) ∧
    (∀ (st st1 : Settings) (r : INIReader) (e : PyError),
      st.configured = false → st.readAll r = .error (e, st1) →
      st.configure (some r) = .error (e, st1)) := by
  refine ⟨?_, ?_, ?_⟩
  · intro r sec opt d f v e hv hf
    unfold INIReader.get
    rw [hv]
    exact hf
  · intro r g v e hv hf
    have hg : r.get "docker" "unix_socket" (.bool false) (some .bool) = .error e := by
      unfold INIReader.get
      rw [hv]
      exact hf
    unfold DockerSettings.read
    simp [hg, setF, Bind.bind, Except.bind]
  · intro st st1 r e hc hra
    unfold Settings.configure
    simp [hc, hra]

/-- C7: `get_unix_socket_url()` is the fixed local socket URL exactly
when the already-read `unix_socket` flag is true, else `None`, without
any further read; and docker validation fails exactly when neither
`unix_socket` nor `external_url` is truthy. -/
theorem c7_docker_socket_and_validate (g : DockerSettings) (b : Bool)
    (h : g.unix_socket = .bool b) :
    (g.get_unix_socket_url =
      if b then .str "unix:///var/run/docker.sock" else .none) ∧
    (g.validate ≠ [] ↔
      (g.unix_socket.truthy = false ∧ g.external_url.truthy = false)) := by
  constructor
  · unfold DockerSettings.get_unix_socket_url
    rw [h]
    cases b <;> simp [Val.truthy]
  · unfold DockerSettings.validate
    cases hu : g.unix_socket.truthy <;> cases he : g.external_url.truthy <;>
      simp [hu, he]

/-- C9: on a fresh instance `all_features` lists precisely the twelve
`FeatureSettings`-typed attribute names, `server` included, in
insertion order; the list is cached in `_all_features` on first access
and every later access returns the cached list with no state change. -/
theorem c9_all_features_cached (st : Settings) :
    (Settings.init.all_features).1 =
      ["server", "clients", "compute_resources", "discovery", "docker",
       "fake_manifest", "ldap", "oscap", "performance", "rhai",
       "transition", "vlan_networking"] ∧
    (Settings.init.all_features).1.length = 12 ∧
    (Settings.init.all_features).2._all_features =
      some (Settings.init.all_features).1 ∧
    (∀ l, st._all_features = some l → st.all_features = (l, st)) := by
  refine ⟨rfl, rfl, rfl, ?_⟩
  intro l hl
  unfold Settings.all_features
  rw [hl]

/-- Decidable equality of `Except` results, for evaluating the model
on concrete inputs. -/
instance exceptDecEq {e a : Type} [DecidableEq e] [DecidableEq a] :
    DecidableEq (Except e a) := fun x y =>
  match x, y with
  | .ok v, .ok w =>
    if h : v = w then isTrue (by rw [h])
    else isFalse (by intro hh; injection hh with hv; exact h hv)
  | .error v, .error w =>
    if h : v = w then isTrue (by rw [h])
    else isFalse (by intro hh; injection hh with hv; exact h hv)
  | .ok v, .error w => isFalse (by intro hh; exact Except.noConfusion hh)
  | .error v, .ok w => isFalse (by intro hh; exact Except.noConfusion hh)

/-- C8 counterexample input: browser is saucelabs, neither saucelabs
credential is defined, but the webdriver option is invalid. -/
def c8r : INIReader :=
  ⟨[("robottelo", [("browser", "saucelabs"), ("webdriver", "bogus")]),
    ("server", [("hostname", "h"), ("ssh_password", "x")])]⟩

/-- The state produced by the read phase on `c8r`. -/
def c8s : Settings :=
  match Settings.init.readAll c8r with
  | .ok s => s
  | .error p => p.2

/-- C8 as stated is false: `c8r` sets browser to saucelabs and defines
neither saucelabs credential, yet global validation produces three
error strings (an invalid webdriver adds a third), not exactly two. -/
theorem c8_counterexample :
    c8r.parserGet "robottelo" "browser" = .ok "saucelabs" ∧
    c8r.parserGet "robottelo" "saucelabs_user" =
      .error (.noOption "robottelo" "saucelabs_user") ∧
    c8r.parserGet "robottelo" "saucelabs_key" =
      .error (.noOption "robottelo" "saucelabs_key") ∧
    Settings.init.readAll c8r = .ok c8s ∧
    (Settings._validate_robottelo_settings c8s).length = 3 ∧
    ¬ (Settings._validate_robottelo_settings c8s).length = 2 :=
  ⟨rfl, rfl, rfl, rfl, rfl, by decide⟩

/-- C8 (amended): for every source whose global options set browser to
saucelabs, define neither saucelabs credential, and whose webdriver
option is valid (or absent, defaulting to firefox), global validation
produces exactly the two distinct missing-credential error strings,
and `configure()` fails with both of them in its message. -/
theorem c8_saucelabs_two_errors (st st1 : Settings) (r : INIReader)
    (hra : st.readAll r = .ok st1)
    (hb : r.getD "robottelo" "browser" (.str "selenium") = .str "saucelabs")
    (hu : r.getD "robottelo" "saucelabs_user" Val.none = Val.none)
    (hk : r.getD "robottelo" "saucelabs_key" Val.none = Val.none)
    (hw : r.getD "robottelo" "webdriver" (.str "firefox") ∈ webdrivers.map Val.str) :
    Settings._validate_robottelo_settings st1 =
      ["[robottelo] saucelabs_user must be provided when browser is saucelabs.",
       "[robottelo] saucelabs_key must be provided when browser is saucelabs."] ∧
    ("[robottelo] saucelabs_user must be provided when browser is saucelabs." ≠
     "[robottelo] saucelabs_key must be provided when browser is saucelabs.") ∧
    (st.configured = false →
      st.configure (some r) =
        .error (.improperlyConfigured (improperMsg st1._validation_errors), st1) ∧
      "[robottelo] saucelabs_user must be provided when browser is saucelabs."
        ∈ st1._validation_errors ∧
      "[robottelo] saucelabs_key must be provided when browser is saucelabs."
        ∈ st1._validation_errors) := by
  have R := readAll_ok hra
  have hb1 : st1.browser = .str "saucelabs" := R.2.2.2.1.trans hb
  have hw1 : st1.webdriver ∈ webdrivers.map Val.str := by
    rw [R.2.2.2.2.1]; exact hw
  have hu1 : st1.saucelabs_user = Val.none := R.2.2.2.2.2.1.trans hu
  have hk1 : st1.saucelabs_key = Val.none := R.2.2.2.2.2.2.1.trans hk
  have hv : Settings._validate_robottelo_settings st1 =
      ["[robottelo] saucelabs_user must be provided when browser is saucelabs.",
       "[robottelo] saucelabs_key must be provided when browser is saucelabs."] := by
    unfold Settings._validate_robottelo_settings
    rw [hb1, hu1, hk1]
    simp [browsers, hw1]
  obtain ⟨-, -, -, -, -, -, -, -, -, -, -, -, -, -, -, -, -, -, -, -, -,
    -, -, -, -, -, -, -, -, -, herr⟩ := R
  refine ⟨hv, by decide, ?_⟩
  intro hc
  have humem : "[robottelo] saucelabs_user must be provided when browser is saucelabs."
      ∈ st1._validation_errors := by
    rw [herr, hv]; simp
  have hkmem : "[robottelo] saucelabs_key must be provided when browser is saucelabs."
      ∈ st1._validation_errors := by
    rw [herr, hv]; simp
  have hne : st1._validation_errors ≠ [] := List.ne_nil_of_mem humem
  exact ⟨configure_fails_of_errors hc hra hne, humem, hkmem⟩

/-- C3: starting from a fresh instance, the read phase of
`configure()` reads and validates the server section unconditionally,
reads and validates each of the eleven optional groups exactly when
its section is present (an absent group stays at its init-time
defaults), and the accumulated error list is precisely the
concatenation of the validations that ran, in source order. -/
theorem c3_server_mandatory_optional_by_section (r : INIReader) (st2 : Settings)
    (h : Settings.init.readAll r = .ok st2) :
    ServerSettings.init.read r = .ok st2.server ∧
    (r.has_section "clients" = false → st2.clients = ClientsSettings.init) ∧
    (r.has_section "clients" = true → ClientsSettings.init.read r = .ok st2.clients) ∧
    (r.has_section "compute_resources" = false → st2.compute_resources = LibvirtHostSettings.init) ∧
    (r.has_section "compute_resources" = true → LibvirtHostSettings.init.read r = .ok st2.compute_resources) ∧
    (r.has_section "discovery" = false → st2.discovery = DiscoveryISOSettings.init) ∧
    (r.has_section "discovery" = true → DiscoveryISOSettings.init.read r = .ok st2.discovery) ∧
    (r.has_section "docker" = false → st2.docker = DockerSettings.init) ∧
    (r.has_section "docker" = true → DockerSettings.init.read r = .ok st2.docker) ∧
    (r.has_section "fake_manifest" = false → st2.fake_manifest = FakeManifestSettings.init) ∧
    (r.has_section "fake_manifest" = true → FakeManifestSettings.init.read r = .ok st2.fake_manifest) ∧
    (r.has_section "ldap" = false → st2.ldap = LDAPSettings.init) ∧
    (r.has_section "ldap" = true → LDAPSettings.init.read r = .ok st2.ldap) ∧
    (r.has_section "oscap" = false → st2.oscap = OscapSettings.init) ∧
    (r.has_section "oscap" = true → OscapSettings.init.read r = .ok st2.oscap) ∧
    (r.has_section "performance" = false → st2.performance = PerformanceSettings.init) ∧
    (r.has_section "performance" = true → PerformanceSettings.init.read r = .ok st2.performance) ∧
    (r.has_section "rhai" = false → st2.rhai = RHAISettings.init) ∧
    (r.has_section "rhai" = true → RHAISettings.init.read r = .ok st2.rhai) ∧
    (r.has_section "transition" = false → st2.transition = TransitionSettings.init) ∧
    (r.has_section "transition" = true → TransitionSettings.init.read r = .ok st2.transition) ∧
    (r.has_section "vlan_networking" = false → st2.vlan_networking = VlanNetworkSettings.init) ∧
    (r.has_section "vlan_networking" = true → VlanNetworkSettings.init.read r = .ok st2.vlan_networking) ∧
    st2._validation_errors =
      Settings._validate_robottelo_settings st2 ++
      st2.server.validate ++
      (if r.has_section "clients" then st2.clients.validate else []) ++
      (if r.has_section "compute_resources" then st2.compute_resources.validate else []) ++
      (if r.has_section "discovery" then st2.discovery.validate else []) ++
      (if r.has_section "docker" then st2.docker.validate else []) ++
      (if r.has_section "fake_manifest" then st2.fake_manifest.validate else []) ++
      (if r.has_section "ldap" then st2.ldap.validate else []) ++
      (if r.has_section "oscap" then st2.oscap.validate else []) ++
      (if r.has_section "performance" then st2.performance.validate else []) ++
      (if r.has_section "rhai" then st2.rhai.validate else []) ++
      (if r.has_section "transition" then st2.transition.validate else []) ++
      (if r.has_section "vlan_networking" then st2.vlan_networking.validate else []) := by
  have R := readAll_ok h
  obtain ⟨-, -, -, -, -, -, -, hsrv, p1a, p1p, p2a, p2p, p3a, p3p, p4a, p4p,
    p5a, p5p, p6a, p6p, p7a, p7p, p8a, p8p, p9a, p9p, p10a, p10p,
    p11a, p11p, herr⟩ := R
  refine ⟨by simpa [Settings.init] using hsrv, fun hs => by simpa [Settings.init] using p1a hs,
    fun hs => by simpa [Settings.init] using p1p hs,
    fun hs => by simpa [Settings.init] using p2a hs,
    fun hs => by simpa [Settings.init] using p2p hs,
    fun hs => by simpa [Settings.init] using p3a hs,
    fun hs => by simpa [Settings.init] using p3p hs,
    fun hs => by simpa [Settings.init] using p4a hs,
    fun hs => by simpa [Settings.init] using p4p hs,
    fun hs => by simpa [Settings.init] using p5a hs,
    fun hs => by simpa [Settings.init] using p5p hs,
    fun hs => by simpa [Settings.init] using p6a hs,
    fun hs => by simpa [Settings.init] using p6p hs,
    fun hs => by simpa [Settings.init] using p7a hs,
    fun hs => by simpa [Settings.init] using p7p hs,
    fun hs => by simpa [Settings.init] using p8a hs,
    fun hs => by simpa [Settings.init] using p8p hs,
    fun hs => by simpa [Settings.init] using p9a hs,
    fun hs => by simpa [Settings.init] using p9p hs,
    fun hs => by simpa [Settings.init] using p10a hs,
    fun hs => by simpa [Settings.init] using p10p hs,
    fun hs => by simpa [Settings.init] using p11a hs,
    fun hs => by simpa [Settings.init] using p11p hs, ?_⟩
  simpa [Settings.init] using herr

/-- C3 witness input: server plus two optional sections present
(docker and ldap), the other nine absent. -/
def c3r : INIReader :=
  ⟨[("server", [("hostname", "h"), ("ssh_password", "x")]),
    ("docker", [("unix_socket", "1")]),
    ("ldap", [("basedn", "dc"), ("grpbasedn", "dc"), ("hostname", "lh"),
              ("password", "p"), ("username", "u")])]⟩

/-- The state produced by the read phase on `c3r`. -/
def c3s : Settings :=
  match Settings.init.readAll c3r with
  | .ok s => s
  | .error p => p.2

/-- Witness for C3 at the concrete source `c3r`. -/
theorem c3_witness :
    Settings.init.readAll c3r = .ok c3s ∧
    (    ServerSettings.init.read c3r = .ok c3s.server ∧
     (c3r.has_section "clients" = false → c3s.clients = ClientsSettings.init) ∧
     (c3r.has_section "clients" = true → ClientsSettings.init.read c3r = .ok c3s.clients) ∧
     (c3r.has_section "compute_resources" = false → c3s.compute_resources = LibvirtHostSettings.init) ∧
     (c3r.has_section "compute_resources" = true → LibvirtHostSettings.init.read c3r = .ok c3s.compute_resources) ∧
     (c3r.has_section "discovery" = false → c3s.discovery = DiscoveryISOSettings.init) ∧
     (c3r.has_section "discovery" = true → DiscoveryISOSettings.init.read c3r = .ok c3s.discovery) ∧
     (c3r.has_section "docker" = false → c3s.docker = DockerSettings.init) ∧
     (c3r.has_section "docker" = true → DockerSettings.init.read c3r = .ok c3s.docker) ∧
     (c3r.has_section "fake_manifest" = false → c3s.fake_manifest = FakeManifestSettings.init) ∧
     (c3r.has_section "fake_manifest" = true → FakeManifestSettings.init.read c3r = .ok c3s.fake_manifest) ∧
     (c3r.has_section "ldap" = false → c3s.ldap = LDAPSettings.init) ∧
     (c3r.has_section "ldap" = true → LDAPSettings.init.read c3r = .ok c3s.ldap) ∧
     (c3r.has_section "oscap" = false → c3s.oscap = OscapSettings.init) ∧
     (c3r.has_section "oscap" = true → OscapSettings.init.read c3r = .ok c3s.oscap) ∧
     (c3r.has_section "performance" = false → c3s.performance = PerformanceSettings.init) ∧
     (c3r.has_section "performance" = true → PerformanceSettings.init.read c3r = .ok c3s.performance) ∧
     (c3r.has_section "rhai" = false → c3s.rhai = RHAISettings.init) ∧
     (c3r.has_section "rhai" = true → RHAISettings.init.read c3r = .ok c3s.rhai) ∧
     (c3r.has_section "transition" = false → c3s.transition = TransitionSettings.init) ∧
     (c3r.has_section "transition" = true → TransitionSettings.init.read c3r = .ok c3s.transition) ∧
     (c3r.has_section "vlan_networking" = false → c3s.vlan_networking = VlanNetworkSettings.init) ∧
     (c3r.has_section "vlan_networking" = true → VlanNetworkSettings.init.read c3r = .ok c3s.vlan_networking) ∧
     c3s._validation_errors =
       Settings._validate_robottelo_settings c3s ++
       c3s.server.validate ++
       (if c3r.has_section "clients" then c3s.clients.validate else []) ++
       (if c3r.has_section "compute_resources" then c3s.compute_resources.validate else []) ++
       (if c3r.has_section "discovery" then c3s.discovery.validate else []) ++
       (if c3r.has_section "docker" then c3s.docker.validate else []) ++
       (if c3r.has_section "fake_manifest" then c3s.fake_manifest.validate else []) ++
       (if c3r.has_section "ldap" then c3s.ldap.validate else []) ++
       (if c3r.has_section "oscap" then c3s.oscap.validate else []) ++
       (if c3r.has_section "performance" then c3s.performance.validate else []) ++
       (if c3r.has_section "rhai" then c3s.rhai.validate else []) ++
       (if c3r.has_section "transition" then c3s.transition.validate else []) ++
       (if c3r.has_section "vlan_networking" then c3s.vlan_networking.validate else [])) :=
  have h : Settings.init.readAll c3r = Except.ok c3s := by
    set_option maxRecDepth 20000 in set_option maxHeartbeats 2000000 in decide
  ⟨h, c3_server_mandatory_optional_by_section c3r c3s h⟩

/-! ## Witnesses at concrete inputs -/

/-- An already-configured instance. -/
def c2state : Settings := { Settings.init with _configured := true }

/-- Witness for C2: a second `configure()` on a configured instance
returns it unchanged, even with no settings file at all. -/
theorem c2_witness :
    c2state.configured = true ∧
    c2state.configure (some ⟨[]⟩) = .ok c2state ∧
    c2state.configure Option.none = .ok c2state :=
  ⟨rfl, c2_configure_skip c2state (some ⟨[]⟩) rfl,
   c2_configure_skip c2state Option.none rfl⟩

/-- C1 witness input: a server section with a hostname but neither
`ssh_key` nor `ssh_password`. -/
def c1r : INIReader := ⟨[("server", [("hostname", "foo.example.com")])]⟩

/-- The state produced by the read phase on `c1r`. -/
def c1s : Settings :=
  match Settings.init.readAll c1r with
  | .ok s => s
  | .error p => p.2

/-- Witness for C1 at the concrete source `c1r`. -/
theorem c1_witness :
    Settings.init.configured = false ∧
    Settings.init.readAll c1r = .ok c1s ∧
    c1s._validation_errors ≠ [] ∧
    (Settings.init.configure (some c1r) =
       .error (.improperlyConfigured (improperMsg c1s._validation_errors), c1s) ∧
     c1s._configured = false ∧
     c1s.sideEffects = Settings.init.sideEffects) := by
  have h1 : Settings.init.readAll c1r = .ok c1s := by
    set_option maxRecDepth 20000 in set_option maxHeartbeats 2000000 in decide
  have h2 : c1s._validation_errors ≠ [] := by
    set_option maxRecDepth 20000 in set_option maxHeartbeats 2000000 in decide
  exact ⟨rfl, h1, h2, c1_validation_failure_atomic Settings.init c1s c1r rfl h1 h2⟩

/-- C10 witness input: first source is invalid (no ssh credentials). -/
def c10r1 : INIReader := ⟨[("server", [("hostname", "h")])]⟩

/-- The state after the first, failing read phase. -/
def c10s1 : Settings :=
  match Settings.init.readAll c10r1 with
  | .ok s => s
  | .error p => p.2

/-- C10 witness input: second source is fully valid. -/
def c10r2 : INIReader :=
  ⟨[("server", [("hostname", "h"), ("ssh_password", "x")])]⟩

/-- The state after the second read phase. -/
def c10s2 : Settings :=
  match c10s1.readAll c10r2 with
  | .ok s => s
  | .error p => p.2

/-- Witness for C10: the second `configure()` fails again even though
the second source is valid, and the old errors survive as a prefix. -/
theorem c10_witness :
    Settings.init.configured = false ∧
    Settings.init.readAll c10r1 = .ok c10s1 ∧
    c10s1._validation_errors ≠ [] ∧
    c10s1.readAll c10r2 = .ok c10s2 ∧
    (c10s1._validation_errors <+: c10s2._validation_errors ∧
     c10s2._validation_errors ≠ [] ∧
     c10s1.configure (some c10r2) =
       .error (.improperlyConfigured (improperMsg c10s2._validation_errors), c10s2)) := by
  have h1 : Settings.init.readAll c10r1 = .ok c10s1 := by
    set_option maxRecDepth 20000 in set_option maxHeartbeats 2000000 in decide
  have h2 : c10s1._validation_errors ≠ [] := by
    set_option maxRecDepth 20000 in set_option maxHeartbeats 2000000 in decide
  have h4 : c10s1.readAll c10r2 = .ok c10s2 := by
    set_option maxRecDepth 20000 in set_option maxHeartbeats 2000000 in decide
  have H := c10_stale_errors_resurface Settings.init c10s1 c10r1 rfl h1 h2
  exact ⟨rfl, h1, h2, h4, H.2.2 c10r2 c10s2 h4⟩

/-- C4 witness record: hostname `h`, port 8080, no scheme. -/
def c4s : ServerSettings :=
  { ServerSettings.init with hostname := .str "h", port := .int 8080 }

/-- Witness for C4: with hostname `h`, port 8080 and no scheme,
`get_url()` is `https://h:8080`. -/
theorem c4_witness :
    c4s.hostname = .str "h" ∧ ("h" : String) ≠ "" ∧
    (c4s.scheme = Val.none ∨ c4s.scheme = .str "") ∧
    c4s.get_url = "https://h:8080" := by
  have H := c4_get_url c4s "h" rfl (by decide)
  refine ⟨rfl, by decide, Or.inl rfl, ?_⟩
  rw [H.1 (Or.inl rfl)]
  decide

/-- C5 witness input. -/
def c5r : INIReader := ⟨[("robottelo", [("upstream", "1")])]⟩

/-- Witness for C5: an absent section yields the default unchanged
(no cast applied), a present option goes through the dispatched cast,
and with no cast the raw string is returned. -/
theorem c5_witness :
    (c5r.parserGet "nope" "x" = .error (.noSection "nope") ∧
     c5r.get "nope" "x" (.int 7) (some .bool) = .ok (.int 7)) ∧
    (c5r.parserGet "robottelo" "upstream" = .ok "1" ∧
     c5r.get "robottelo" "upstream" (.bool false) (some .bool) = cast_boolean "1" ∧
     c5r.get "robottelo" "upstream" (.bool false) Option.none = .ok (.str "1")) := by
  have H1 := c5_get_default_or_cast c5r "nope" "x" (.int 7) (some .bool)
  have H2 := c5_get_default_or_cast c5r "robottelo" "upstream" (.bool false) (some .bool)
  have H3 := c5_get_default_or_cast c5r "robottelo" "upstream" (.bool false) Option.none
  exact ⟨⟨rfl, H1.1 (.noSection "nope") rfl⟩,
    ⟨rfl, H2.2 "1" rfl, H3.2 "1" rfl⟩⟩

/-- C6 witness input: a docker section whose `unix_socket` value is
not a boolean literal. -/
def c6r : INIReader :=
  ⟨[("server", [("hostname", "h"), ("ssh_password", "x")]),
    ("docker", [("unix_socket", "banana")])]⟩

/-- The state left behind by the failing read phase on `c6r`. -/
def c6s : Settings :=
  match Settings.init.readAll c6r with
  | .ok s => s
  | .error p => p.2

/-- Witness for C6: the boolean-cast failure on `banana` escapes
`get`, `DockerSettings.read` and `configure()` as the same
`castError`, never as a validation-error string. -/
theorem c6_witness :
    c6r.parserGet "docker" "unix_socket" = .ok "banana" ∧
    cast_boolean "banana" = .error (.castError "banana") ∧
    c6r.get "docker" "unix_socket" (.bool false) (some (.fn cast_boolean)) =
      .error (.castError "banana") ∧
    DockerSettings.init.read c6r =
      .error (.castError "banana", DockerSettings.init) ∧
    Settings.init.configured = false ∧
    Settings.init.readAll c6r = .error (.castError "banana", c6s) ∧
    Settings.init.configure (some c6r) = .error (.castError "banana", c6s) := by
  have hb : cast_boolean "banana" = .error (.castError "banana") := by decide
  have hra : Settings.init.readAll c6r = .error (.castError "banana", c6s) := by
    set_option maxRecDepth 20000 in set_option maxHeartbeats 2000000 in decide
  have H := c6_cast_error_uncaught
  exact ⟨rfl, hb,
    H.1 c6r "docker" "unix_socket" (.bool false) cast_boolean "banana"
      (.castError "banana") rfl hb,
    H.2.1 c6r DockerSettings.init "banana" (.castError "banana") rfl hb,
    rfl, hra,
    H.2.2 Settings.init c6s c6r (.castError "banana") rfl hra⟩

/-- A docker group with the unix-socket flag on. -/
def c7a : DockerSettings := { unix_socket := .bool true, external_url := Val.none }

/-- A docker group with the flag off and no external URL. -/
def c7b : DockerSettings := { unix_socket := .bool false, external_url := Val.none }

/-- Witness for C7: flag on yields the fixed socket URL; flag off with
no external URL fails validation. -/
theorem c7_witness :
    c7a.unix_socket = .bool true ∧
    c7a.get_unix_socket_url = .str "unix:///var/run/docker.sock" ∧
    c7b.unix_socket = .bool false ∧
    c7b.get_unix_socket_url = Val.none ∧
    c7b.validate ≠ [] := by
  have HA := c7_docker_socket_and_validate c7a true rfl
  have HB := c7_docker_socket_and_validate c7b false rfl
  exact ⟨rfl, by simpa using HA.1, rfl, by simpa using HB.1,
    HB.2.mpr ⟨rfl, rfl⟩⟩

/-- C8 witness input: browser saucelabs, no credentials, webdriver
absent (so the firefox default applies). -/
def c8wr : INIReader :=
  ⟨[("robottelo", [("browser", "saucelabs")]),
    ("server", [("hostname", "h"), ("ssh_password", "x")])]⟩

/-- The state produced by the read phase on `c8wr`. -/
def c8ws : Settings :=
  match Settings.init.readAll c8wr with
  | .ok s => s
  | .error p => p.2

/-- Witness for the amended C8 at the concrete source `c8wr`. -/
theorem c8_witness :
    Settings.init.readAll c8wr = .ok c8ws ∧
    Settings._validate_robottelo_settings c8ws =
      ["[robottelo] saucelabs_user must be provided when browser is saucelabs.",
       "[robottelo] saucelabs_key must be provided when browser is saucelabs."] ∧
    Settings.init.configure (some c8wr) =
      .error (.improperlyConfigured (improperMsg c8ws._validation_errors), c8ws) := by
  have h1 : Settings.init.readAll c8wr = .ok c8ws := by
    set_option maxRecDepth 20000 in set_option maxHeartbeats 2000000 in decide
  have H := c8_saucelabs_two_errors Settings.init c8ws c8wr h1 (by decide)
    (by decide) (by decide) (by decide)
  exact ⟨h1, H.1, (H.2.2 rfl).1⟩

/-- Witness for C9: after a first access the cache holds the twelve
names and a second access returns them with no state change. -/
theorem c9_witness :
    (Settings.init.all_features).2._all_features =
      some ["server", "clients", "compute_resources", "discovery", "docker",
            "fake_manifest", "ldap", "oscap", "performance", "rhai",
            "transition", "vlan_networking"] ∧
    (Settings.init.all_features).2.all_features =
      (["server", "clients", "compute_resources", "discovery", "docker",
        "fake_manifest", "ldap", "oscap", "performance", "rhai",
        "transition", "vlan_networking"], (Settings.init.all_features).2) :=
  ⟨rfl, (c9_all_features_cached (Settings.init.all_features).2).2.2.2
    ["server", "clients", "compute_resources", "discovery", "docker",
     "fake_manifest", "ldap", "oscap", "performance", "rhai",
     "transition", "vlan_networking"] rfl⟩
